import Mathlib

/-! OSKAR memory wrapper: assignment, null test and element-type tags.

A shallow embedding of

* `struct oskar_Mem` and the type / location enumerators of `utility/oskar_Mem.h`,
* `oskar_mem_assign` of `utility/src/oskar_mem_assign.c`,
* the type composition of `cross_power_beam::createTestData` in
  `correlate/test/Test_evaluate_cross_power_beam.cpp`,
* the 2x2 complex matrix multiply of `math/cudak/oskar_cudaf_mul_mat2c_mat2c.h`,
* the gain-phase and permitted-beams loaders of `apps/lib/src`,
* the constructor, `resize`, `get_pointer`, `binary_file_write` and
  `binary_file_read` of `oskar_Mem`, which the header only declares, as the
  spec describes them.

C `int` values are integers (`Int`); no arithmetic is done on them here, they
are only compared, copied and combined bitwise.  A `void*` is an address
(`Nat`, `0` being `NULL`).  A pointer to an `oskar_Mem` is `Option Nat`:
`none` is `NULL` and `some i` is the address of the `i`-th structure of the
heap.  Dereferencing an address that holds no structure has no defined
behaviour, which the embedding renders as the result `none`.
-/

namespace OSKAR

/-! ## Constants of `oskar_global.h` -/

/-- Modelled from the spec: `oskar_global.h`, which defines the status codes,
is not among the sources.  Status codes are integers and success is the zero
status ("non-zero = failure"; the tests assert `ASSERT_EQ(0, status)`). -/
def OSKAR_SUCCESS : Int := 0

/-- Modelled from the spec: `oskar_global.h` is not among the sources.  The
spec fixes only that a failure status is non-zero and that the error kinds are
told apart; the value is a stand-in of which nothing is used but that it is
non-zero and is not `OSKAR_ERR_TYPE_MISMATCH`. -/
def OSKAR_ERR_INVALID_ARGUMENT : Int := -3

/-- Modelled from the spec: `oskar_global.h` is not among the sources.  The
spec fixes only that a failure status is non-zero and that the error kinds are
told apart; the value is a stand-in of which nothing is used but that it is
non-zero and is not `OSKAR_ERR_INVALID_ARGUMENT`. -/
def OSKAR_ERR_TYPE_MISMATCH : Int := -6

/-- Modelled from the spec: `oskar_global.h` is not among the sources.  The
boolean "true" of the ownership flag; `oskar_Mem.h` declares the constructor
default `int owner_ = 1` and documents it as "default = true". -/
def OSKAR_TRUE : Int := 1

/-! ## `utility/oskar_Mem.h` -/

/-- The structure `struct oskar_Mem`: four `int` fields and the `void* data`
pointer, in declaration order. -/
structure oskar_Mem where
  /-- Enumerated element type of memory block. -/
  type : Int
  /-- Address space of data pointer. -/
  location : Int
  /-- Number of elements in memory block. -/
  num_elements : Int
  /-- Flag set if the structure owns the memory. -/
  owner : Int
  /-- Data pointer (an address, `0` is `NULL`). -/
  data : Nat
deriving DecidableEq, Repr

/-- The member function `bool is_null() const {return (data == 0);}`. -/
def oskar_Mem.is_null (m : oskar_Mem) : Bool := m.data == 0

/-- Byte (char): bit 0 set. -/
def OSKAR_CHAR : Int := 0x01
/-- Integer (int): bit 1 set. -/
def OSKAR_INT : Int := 0x02
/-- Scalar single (float): bit 2 set. -/
def OSKAR_SINGLE : Int := 0x04
/-- Scalar double (double): bit 3 set. -/
def OSKAR_DOUBLE : Int := 0x08
/-- Complex flag: bit 5 set. -/
def OSKAR_COMPLEX : Int := 0x20
/-- Matrix flag: bit 6 set. -/
def OSKAR_MATRIX : Int := 0x40
/-- Scalar complex single (float2): `OSKAR_SINGLE | OSKAR_COMPLEX`. -/
def OSKAR_SINGLE_COMPLEX : Int := Int.lor OSKAR_SINGLE OSKAR_COMPLEX
/-- Scalar complex double (double2): `OSKAR_DOUBLE | OSKAR_COMPLEX`. -/
def OSKAR_DOUBLE_COMPLEX : Int := Int.lor OSKAR_DOUBLE OSKAR_COMPLEX
/-- Matrix complex float (float4c):
`OSKAR_SINGLE | OSKAR_COMPLEX | OSKAR_MATRIX`. -/
def OSKAR_SINGLE_COMPLEX_MATRIX : Int :=
  Int.lor (Int.lor OSKAR_SINGLE OSKAR_COMPLEX) OSKAR_MATRIX
/-- Matrix complex double (double4c):
`OSKAR_DOUBLE | OSKAR_COMPLEX | OSKAR_MATRIX`. -/
def OSKAR_DOUBLE_COMPLEX_MATRIX : Int :=
  Int.lor (Int.lor OSKAR_DOUBLE OSKAR_COMPLEX) OSKAR_MATRIX

/-- Host address space. -/
def OSKAR_LOCATION_CPU : Int := 0
/-- Device address space. -/
def OSKAR_LOCATION_GPU : Int := 1

/-! ## The heap of `oskar_Mem` structures -/

/-- The `oskar_Mem` structures that exist at the time of a call; the address
of a structure is its position. -/
abbrev Heap := List oskar_Mem

/-- One C statement `dst->f = src->f;`: reads the structure at `s` and the
structure at `d` from the current heap and writes back the structure at `d`
with the field replaced, as `upd` says. -/
def copyField (upd : oskar_Mem → oskar_Mem → oskar_Mem) (h : Heap) (d s : Nat) :
    Option Heap :=
  match h[s]?, h[d]? with
  | some ms, some md => some (h.set d (upd md ms))
  | _, _ => none

/-! ## `utility/src/oskar_mem_assign.c` -/

/-- The function `int oskar_mem_assign(oskar_Mem* dst, const oskar_Mem* src)`.
The result is the returned status and the heap after the call. -/
def oskar_mem_assign (h : Heap) (dst src : Option Nat) : Option (Int × Heap) :=
  match src, dst with
  /- Sanity check on inputs. -/
  | none, _ => some (OSKAR_ERR_INVALID_ARGUMENT, h)
  | _, none => some (OSKAR_ERR_INVALID_ARGUMENT, h)
  | some s, some d =>
    match h[s]?, h[d]? with
    | some ms, some md =>
      /- Check the data types. -/
      if ms.type ≠ md.type then some (OSKAR_ERR_TYPE_MISMATCH, h)
      /- If the destination memory is owned assignment is not possible -/
      else if md.owner = OSKAR_TRUE then some (OSKAR_ERR_INVALID_ARGUMENT, h)
      else
        (copyField (fun m ms => { m with data := ms.data }) h d s).bind fun h1 =>
        (copyField (fun m ms => { m with num_elements := ms.num_elements }) h1 d s).bind
          fun h2 =>
        (copyField (fun m ms => { m with location := ms.location }) h2 d s).bind fun h3 =>
        (copyField (fun m ms => { m with type := ms.type }) h3 d s).bind fun h4 =>
        some (OSKAR_SUCCESS, h4)
    | _, _ => none

/-- The structure `*dst` after the four assignments of `oskar_mem_assign`. -/
def aliasOf (md ms : oskar_Mem) : oskar_Mem :=
  { md with data := ms.data, num_elements := ms.num_elements,
            location := ms.location, type := ms.type }

/-- The ownership test that `oskar_mem_assign` applies to its destination,
`dst->owner == OSKAR_TRUE` ("If the destination memory is owned ..."). -/
def oskar_Mem.owned (m : oskar_Mem) : Bool := m.owner == OSKAR_TRUE

/-- The number of structures of the heap that own the payload at address `p`. -/
def ownerCount (h : Heap) (p : Nat) : Nat :=
  h.countP fun m => m.owned && m.data == p

/-- Every payload (non-null data address) has at most one owner. -/
def ExclusiveOwnership (h : Heap) : Prop :=
  ∀ p : Nat, p ≠ 0 → ownerCount h p ≤ 1

/-- A status `e` is of the ownership error kind for `oskar_mem_assign` when it
is a failure status and every call that returns it has a destination that owns
its memory, so that the status tells the caller an ownership rule was
violated. -/
def IsOwnershipError (e : Int) : Prop :=
  e ≠ OSKAR_SUCCESS ∧
  ∀ (h : Heap) (dst src : Option Nat) (h' : Heap),
    oskar_mem_assign h dst src = some (e, h') →
    ∃ d md, dst = some d ∧ h[d]? = some md ∧ md.owner = OSKAR_TRUE

/-! ## Element-kind bits -/

/-- The number of element-kind bits (0x01, 0x02, 0x04, 0x08) set in a type
tag. -/
def countKindBits (t : Int) : Nat :=
  ([0x01, 0x02, 0x04, 0x08].filter fun b => Int.land t b != 0).length

/-- A value that is in the range 1..255 and is unchanged by conversion to
`unsigned char`. -/
def FitsInByte (v : Int) : Prop := 1 ≤ v ∧ v ≤ 255 ∧ v % 256 = v

instance (v : Int) : Decidable (FitsInByte v) := by
  unfold FitsInByte
  infer_instance

/-! ## `correlate/test/Test_evaluate_cross_power_beam.cpp` -/

/-- The local `type` that `cross_power_beam::createTestData(int precision,
int location, int matrix)` passes to `oskar_jones_create`:
`type = precision | OSKAR_COMPLEX; if (matrix) type |= OSKAR_MATRIX;`. -/
def createTestData_type (precision matrix : Int) : Int :=
  let type := Int.lor precision OSKAR_COMPLEX
  if matrix ≠ 0 then Int.lor type OSKAR_MATRIX else type

/-! ## Sample buffers -/

/-- A non-owning, empty double-precision buffer on the host. -/
def viewBuf : oskar_Mem :=
  { type := OSKAR_DOUBLE, location := OSKAR_LOCATION_CPU, num_elements := 0,
    owner := 0, data := 0 }

/-- An owning double-precision buffer of 16 elements on the device. -/
def srcBuf : oskar_Mem :=
  { type := OSKAR_DOUBLE, location := OSKAR_LOCATION_GPU, num_elements := 16,
    owner := OSKAR_TRUE, data := 4096 }

/-- An owning double-precision buffer of 8 elements on the host. -/
def ownedBuf : oskar_Mem :=
  { type := OSKAR_DOUBLE, location := OSKAR_LOCATION_CPU, num_elements := 8,
    owner := OSKAR_TRUE, data := 8192 }

/-- An owning single-precision buffer of 8 elements on the host. -/
def singleBuf : oskar_Mem :=
  { type := OSKAR_SINGLE, location := OSKAR_LOCATION_CPU, num_elements := 8,
    owner := OSKAR_TRUE, data := 12288 }

/-- A non-owning double-precision buffer of no elements whose data pointer is
not `NULL`. -/
def emptyViewBuf : oskar_Mem :=
  { type := OSKAR_DOUBLE, location := OSKAR_LOCATION_CPU, num_elements := 0,
    owner := 0, data := 4096 }

/-- A double-precision buffer that records 16 elements and has a `NULL` data
pointer. -/
def unallocatedBuf : oskar_Mem :=
  { type := OSKAR_DOUBLE, location := OSKAR_LOCATION_CPU, num_elements := 16,
    owner := OSKAR_TRUE, data := 0 }

/-- A pointer that a call may receive: `NULL`, or the address of a structure of
the heap. -/
def validPtr (h : Heap) : Option Nat → Bool
  | none => true
  | some i => decide (i < h.length)

/-! ## `math/cudak/oskar_cudaf_mul_mat2c_mat2c.h` -/

/-- The two-component vector types `float2` and `double2`, over the number
type `R` in place of `float` and `double`. -/
structure float2 (R : Type) where
  /-- Real part. -/
  x : R
  /-- Imaginary part. -/
  y : R
deriving DecidableEq, Repr

/-- The 2x2 complex matrix types `float4c` and `double4c`, over the number type
`R`: the four members `a`, `b`, `c`, `d` are the entries of `[a b; c d]`. -/
structure float4c (R : Type) where
  a : float2 R
  b : float2 R
  c : float2 R
  d : float2 R
deriving DecidableEq, Repr

/-- The type `double2`, over the same number type. -/
abbrev double2 (R : Type) := float2 R

/-- The type `double4c`, over the same number type. -/
abbrev double4c (R : Type) := float4c R

/-- The matrix objects a call can refer to, by address. -/
abbrev MatStore (R : Type) := Nat → float4c R

/-- Complex addition, part by part with the addition of `R`; exact where the
addition of `R` is. -/
def cadd {R : Type} [Add R] (p q : float2 R) : float2 R :=
  { x := p.x + q.x, y := p.y + q.y }

/-- Complex multiplication,
`(p.x + i p.y)(q.x + i q.y) = (p.x q.x - p.y q.y) + i (p.x q.y + p.y q.x)`,
in the arithmetic of `R`; exact where the arithmetic of `R` is. -/
def cmul {R : Type} [Add R] [Sub R] [Mul R] (p q : float2 R) : float2 R :=
  { x := p.x * q.x - p.y * q.y, y := p.x * q.y + p.y * q.x }

/-- The function `oskar_cudaf_mul_mat2c_mat2c_f(float4c& m1, const float4c& m2)`,
statement by statement. The references `m1` and `m2` are addresses in the
store. The helper `oskar_cudaf_mul_c_c_f` of `oskar_cudaf_mul_c_c.h` is not
among the sources and is a parameter: `mul2 p q` is the value its two-argument
form leaves in its first argument, `mul3 p q` the value its three-argument form
writes to its third argument. -/
def oskar_cudaf_mul_mat2c_mat2c_f {R : Type} [Add R]
    (mul2 mul3 : float2 R → float2 R → float2 R)
    (σ : MatStore R) (m1 m2 : Nat) : MatStore R :=
  /- Before anything else, copy a and c from the input matrix. -/
  let a := (σ m1).a
  let c := (σ m1).c
  /- First, evaluate result a. -/
  let σ := Function.update σ m1 { σ m1 with a := mul2 (σ m1).a (σ m2).a }
  let t := mul3 (σ m1).b (σ m2).c
  let σ := Function.update σ m1 { σ m1 with a := { (σ m1).a with x := (σ m1).a.x + t.x } }
  let σ := Function.update σ m1 { σ m1 with a := { (σ m1).a with y := (σ m1).a.y + t.y } }
  /- Second, evaluate result c. -/
  let σ := Function.update σ m1 { σ m1 with c := mul2 (σ m1).c (σ m2).a }
  let t := mul3 (σ m1).d (σ m2).c
  let σ := Function.update σ m1 { σ m1 with c := { (σ m1).c with x := (σ m1).c.x + t.x } }
  let σ := Function.update σ m1 { σ m1 with c := { (σ m1).c with y := (σ m1).c.y + t.y } }
  /- Third, evaluate result b. -/
  let σ := Function.update σ m1 { σ m1 with b := mul2 (σ m1).b (σ m2).d }
  let t := mul3 a (σ m2).b
  let σ := Function.update σ m1 { σ m1 with b := { (σ m1).b with x := (σ m1).b.x + t.x } }
  let σ := Function.update σ m1 { σ m1 with b := { (σ m1).b with y := (σ m1).b.y + t.y } }
  /- Fourth, evaluate result d. -/
  let σ := Function.update σ m1 { σ m1 with d := mul2 (σ m1).d (σ m2).d }
  let t := mul3 c (σ m2).b
  let σ := Function.update σ m1 { σ m1 with d := { (σ m1).d with x := (σ m1).d.x + t.x } }
  let σ := Function.update σ m1 { σ m1 with d := { (σ m1).d with y := (σ m1).d.y + t.y } }
  σ

/-- The function `oskar_cudaf_mul_mat2c_mat2c_d(double4c& m1, const double4c&
m2)`, statement by statement, with the helper `oskar_cudaf_mul_c_c_d` as the
parameters `mul2` and `mul3`. -/
def oskar_cudaf_mul_mat2c_mat2c_d {R : Type} [Add R]
    (mul2 mul3 : double2 R → double2 R → double2 R)
    (σ : MatStore R) (m1 m2 : Nat) : MatStore R :=
  /- Before anything else, copy a and c from the input matrix. -/
  let a := (σ m1).a
  let c := (σ m1).c
  /- First, evaluate result a. -/
  let σ := Function.update σ m1 { σ m1 with a := mul2 (σ m1).a (σ m2).a }
  let t := mul3 (σ m1).b (σ m2).c
  let σ := Function.update σ m1 { σ m1 with a := { (σ m1).a with x := (σ m1).a.x + t.x } }
  let σ := Function.update σ m1 { σ m1 with a := { (σ m1).a with y := (σ m1).a.y + t.y } }
  /- Second, evaluate result c. -/
  let σ := Function.update σ m1 { σ m1 with c := mul2 (σ m1).c (σ m2).a }
  let t := mul3 (σ m1).d (σ m2).c
  let σ := Function.update σ m1 { σ m1 with c := { (σ m1).c with x := (σ m1).c.x + t.x } }
  let σ := Function.update σ m1 { σ m1 with c := { (σ m1).c with y := (σ m1).c.y + t.y } }
  /- Third, evaluate result b. -/
  let σ := Function.update σ m1 { σ m1 with b := mul2 (σ m1).b (σ m2).d }
  let t := mul3 a (σ m2).b
  let σ := Function.update σ m1 { σ m1 with b := { (σ m1).b with x := (σ m1).b.x + t.x } }
  let σ := Function.update σ m1 { σ m1 with b := { (σ m1).b with y := (σ m1).b.y + t.y } }
  /- Fourth, evaluate result d. -/
  let σ := Function.update σ m1 { σ m1 with d := mul2 (σ m1).d (σ m2).d }
  let t := mul3 c (σ m2).b
  let σ := Function.update σ m1 { σ m1 with d := { (σ m1).d with x := (σ m1).d.x + t.x } }
  let σ := Function.update σ m1 { σ m1 with d := { (σ m1).d with y := (σ m1).d.y + t.y } }
  σ

/-- A store of integer matrices: `[1+2i 3+4i; 5+6i 7+8i]` at address 0 and
`[2+i -i; 3 1+i]` at every other address. -/
def sampleMats : MatStore Int := fun r =>
  if r = 0 then
    { a := { x := 1, y := 2 }, b := { x := 3, y := 4 },
      c := { x := 5, y := 6 }, d := { x := 7, y := 8 } }
  else
    { a := { x := 2, y := 1 }, b := { x := 0, y := -1 },
      c := { x := 3, y := 0 }, d := { x := 1, y := 1 } }

/-! ## `apps/lib/src/oskar_TelescopeLoadGainPhase.cpp` and
`apps/lib/src/oskar_TelescopeLoadPermittedBeams.cpp` -/

/-- The two member functions of `oskar_Dir` (`apps/lib/oskar_Dir.h`, not among
the sources) that the loaders call: `exists` and `absoluteFilePath`. -/
structure oskar_Dir where
  /-- The member `bool exists(const std::string&) const`. -/
  exists_ : String → Bool
  /-- The member `std::string absoluteFilePath(const std::string&) const`. -/
  absoluteFilePath : String → String

/-- What a `load` call can read and write: the telescope or station it is
given, the file map, the integer `*status`, and the record of the calls made to
the station file loader, each with the file name passed. -/
structure LoadState (Obj : Type) where
  obj : Obj
  filemap : List (String × String)
  status : Int
  calls : List String

/-- The constant `oskar_TelescopeLoadGainPhase::gain_phase_file`. -/
def oskar_TelescopeLoadGainPhase.gain_phase_file : String := "gain_phase.txt"

/-- The telescope-level `oskar_TelescopeLoadGainPhase::load(oskar_Telescope*,
const oskar_Dir&, int, map<string, string>&, int*)`: nothing to do at the
telescope level. -/
def oskar_TelescopeLoadGainPhase.load_telescope {Telescope : Type}
    (s : LoadState Telescope) (_cwd : oskar_Dir) (_num_subdirs : Int) :
    LoadState Telescope :=
  s

/-- The station-level `oskar_TelescopeLoadGainPhase::load(oskar_Station*,
const oskar_Dir&, int, int, map<string, string>&, int*)`. The function
`oskar_station_load_gain_phase(station, filename, status)` is not among the
sources and is a parameter: it maps the station and `*status` it is given to
the station and `*status` it leaves. -/
def oskar_TelescopeLoadGainPhase.load_station {Station : Type}
    (oskar_station_load_gain_phase : Station → String → Int → Station × Int)
    (s : LoadState Station) (cwd : oskar_Dir) (_num_subdirs _depth : Int) :
    LoadState Station :=
  /- Check for presence of "gain_phase.txt". -/
  if cwd.exists_ oskar_TelescopeLoadGainPhase.gain_phase_file then
    let filename := cwd.absoluteFilePath oskar_TelescopeLoadGainPhase.gain_phase_file
    let r := oskar_station_load_gain_phase s.obj filename s.status
    { s with obj := r.1, status := r.2, calls := s.calls ++ [filename] }
  else s

/-- The constant `oskar_TelescopeLoadPermittedBeams::permitted_beams_file`. -/
def oskar_TelescopeLoadPermittedBeams.permitted_beams_file : String :=
  "permitted_beams.txt"

/-- The telescope-level `oskar_TelescopeLoadPermittedBeams::load`: nothing to
do at the telescope level. -/
def oskar_TelescopeLoadPermittedBeams.load_telescope {Telescope : Type}
    (s : LoadState Telescope) (_cwd : oskar_Dir) (_num_subdirs : Int) :
    LoadState Telescope :=
  s

/-- The station-level `oskar_TelescopeLoadPermittedBeams::load`, with the
function `oskar_station_load_permitted_beams(station, filename, status)`, not
among the sources, as a parameter. -/
def oskar_TelescopeLoadPermittedBeams.load_station {Station : Type}
    (oskar_station_load_permitted_beams : Station → String → Int → Station × Int)
    (s : LoadState Station) (cwd : oskar_Dir) (_num_subdirs _depth : Int) :
    LoadState Station :=
  /- Check for presence of "permitted_beams.txt". -/
  if cwd.exists_ oskar_TelescopeLoadPermittedBeams.permitted_beams_file then
    let filename :=
      cwd.absoluteFilePath oskar_TelescopeLoadPermittedBeams.permitted_beams_file
    let r := oskar_station_load_permitted_beams s.obj filename s.status
    { s with obj := r.1, status := r.2, calls := s.calls ++ [filename] }
  else s


/-! ## The Located Buffer operations and the binary container of the spec

Of the constructors, `resize`, `get_pointer`, `binary_file_write` and
`binary_file_read`, `oskar_Mem.h` holds the declarations only; what they do is
taken from sections 3, 4 and 7 of the spec. Element counts, offsets and sizes
are non-negative integers, as in the data model of the spec. -/

/-- Modelled from the spec: the boolean "false" of the ownership flag, the flag
of a non-owning view; `oskar_global.h` is not among the sources. -/
def OSKAR_FALSE : Int := 0

/-- Modelled from the spec: the error kinds of section 7, which the absent
`oskar_global.h` surfaces as status codes, and `fatal` for the fail-fast on an
unrecognized Type Descriptor (sections 4.1 and 7). -/
inductive Failure where
  | AllocationError
  | OwnershipError
  | TypeMismatchError
  | RangeError
  | FormatError
  | NotFoundError
  | IOError
  | fatal
deriving DecidableEq, Repr

/-- Modelled from the spec: `size_of(tag)` of section 4.1, the element byte
size, whose definition is not among the sources: 1 for a byte, 4 for an integer
and a single, 8 for a double, twice that for a complex pair and four times
that again for a 2x2 matrix ("double-complex-matrix = 4 x 2 x 8 bytes"). A tag
that is none of the eight named types is unrecognized. -/
def size_of (type : Int) : Option Nat :=
  if type = OSKAR_CHAR then some 1
  else if type = OSKAR_INT then some 4
  else if type = OSKAR_SINGLE then some 4
  else if type = OSKAR_DOUBLE then some 8
  else if type = OSKAR_SINGLE_COMPLEX then some (2 * 4)
  else if type = OSKAR_DOUBLE_COMPLEX then some (2 * 8)
  else if type = OSKAR_SINGLE_COMPLEX_MATRIX then some (4 * 2 * 4)
  else if type = OSKAR_DOUBLE_COMPLEX_MATRIX then some (4 * 2 * 8)
  else none

/-- Modelled from the spec: the Located Buffer of section 3, which is the
`oskar_Mem` of the header together with the payload bytes that its data
pointer refers to; the memory behind `data` is not part of `oskar_Mem.h`. -/
structure LocatedBuffer where
  mem : oskar_Mem
  payload : List Nat
deriving DecidableEq, Repr

/-- Modelled from the spec: `create(type, location, count, owning)` of section
4.2, the constructor `oskar_Mem(int mem_type, int mem_location, int size, int
owner_)` whose definition is not among the sources. `count == 0` yields a null
buffer without allocation; otherwise `count * size_of(type)` bytes are
requested from the allocator of the location, `alloc`, which answers with the
address of the block or with 0 when the space cannot be provided; `init` is the
content of the fresh block. -/
def create (alloc : Int → Nat → Nat) (init : Nat → Nat) (type location : Int)
    (count : Nat) (owner : Int) : Except Failure LocatedBuffer :=
  if count = 0 then
    .ok { mem := { type := type, location := location, num_elements := 0,
                   owner := owner, data := 0 },
          payload := [] }
  else
    match size_of type with
    | none => .error .fatal
    | some es =>
      if alloc location (count * es) = 0 then .error .AllocationError
      else
        .ok { mem := { type := type, location := location, num_elements := count,
                       owner := owner, data := alloc location (count * es) },
              payload := (List.range (count * es)).map init }

/-- Modelled from the spec: `resize(newCount)` of section 4.2, the member
`int resize(int size)` whose definition is not among the sources. It fails with
`OwnershipError` on a non-owning buffer and with `AllocationError` when the
allocator answers 0; otherwise the payload holds `size` elements, keeps the
old bytes that fit and has content `init` behind them; type and location are
preserved. -/
def resize (alloc : Int → Nat → Nat) (init : Nat → Nat) (b : LocatedBuffer)
    (size : Nat) : Except Failure LocatedBuffer :=
  if b.mem.owned = false then .error .OwnershipError
  else
    match size_of b.mem.type with
    | none => .error .fatal
    | some es =>
      if size ≠ 0 ∧ alloc b.mem.location (size * es) = 0 then .error .AllocationError
      else
        .ok { mem := { b.mem with
                         num_elements := size,
                         data := if size = 0 then 0 else alloc b.mem.location (size * es) },
              payload := b.payload.take (size * es) ++
                (List.range (size * es - b.payload.length)).map
                  fun i => init (b.payload.length + i) }

/-- Modelled from the spec: `view(offset, count)` of section 4.2, the member
`oskar_Mem get_pointer(int offset, int size) const` whose definition is not
among the sources. It fails with `RangeError` if `offset + size` exceeds the
element count; otherwise the result is a non-owning buffer of the same type and
location that refers to the elements `[offset, offset + size)` of the payload. -/
def get_pointer (b : LocatedBuffer) (offset size : Nat) : Except Failure LocatedBuffer :=
  if ((offset : Int) + (size : Int)) > b.mem.num_elements then .error .RangeError
  else
    match size_of b.mem.type with
    | none => .error .fatal
    | some es =>
      .ok { mem := { type := b.mem.type, location := b.mem.location,
                     num_elements := size, owner := OSKAR_FALSE,
                     data := b.mem.data + offset * es },
            payload := (b.payload.drop (offset * es)).take (size * es) }

/-- Modelled from the spec: one chunk of the container file of sections 3 and
6, the header fields and the raw payload bytes; the payload length of the
header is the length of `payload`. Group and tag are the numeric ids. -/
structure Chunk where
  type : Int
  location : Int
  group : Nat
  tag : Nat
  user_index : Int
  num_elements : Nat
  payload : List Nat
deriving DecidableEq, Repr

/-- Modelled from the spec: the container file, an ordered sequence of
chunks. -/
abbrev ContainerFile := List Chunk

/-- Modelled from the spec: a chunk descriptor of the Tag Index (section 3);
`offset` locates the chunk in the file. -/
structure TagDescriptor where
  offset : Nat
  group : Nat
  tag : Nat
  user_index : Int
  type : Int
  location : Int
  num_elements : Nat
  payload_length : Nat
deriving DecidableEq, Repr

/-- Modelled from the spec: the Tag Index `oskar_BinaryTagIndex` (section 3),
of which the header has a forward declaration only: the descriptors found so
far and the offset up to which the file has been scanned. -/
structure TagIndex where
  entries : List TagDescriptor
  end_offset : Nat
deriving DecidableEq, Repr

/-- The descriptor of the chunk found at `offset`. -/
def describe (offset : Nat) (c : Chunk) : TagDescriptor :=
  { offset := offset, group := c.group, tag := c.tag, user_index := c.user_index,
    type := c.type, location := c.location, num_elements := c.num_elements,
    payload_length := c.payload.length }

/-- The descriptors of consecutive chunks, the first of which is at `offset`. -/
def describeFrom : Nat → List Chunk → List TagDescriptor
  | _, [] => []
  | offset, c :: cs => describe offset c :: describeFrom (offset + 1) cs

/-- Modelled from the spec: `scan(file, fromOffset)` of section 4.3, with the
last known offset of the index as `fromOffset`: the descriptors of the chunks
from there to the end of the file are appended, and the new end offset is
recorded. -/
def scan (file : ContainerFile) (index : TagIndex) : TagIndex :=
  { entries := index.entries ++ describeFrom index.end_offset (file.drop index.end_offset),
    end_offset := max index.end_offset file.length }

/-- The address test of a descriptor. -/
def TagDescriptor.hasAddress (d : TagDescriptor) (group tag : Nat) (user_index : Int) :
    Bool :=
  d.group == group && d.tag == tag && d.user_index == user_index

/-- The address test of a chunk. -/
def Chunk.hasAddress (c : Chunk) (group tag : Nat) (user_index : Int) : Bool :=
  c.group == group && c.tag == tag && c.user_index == user_index

/-- Modelled from the spec: `find(group, tag, userIndex)` of section 4.3, the
descriptor of the last matching chunk, or `none` for `NotFound`. -/
def find : List TagDescriptor → Nat → Nat → Int → Option TagDescriptor
  | [], _, _, _ => none
  | d :: ds, group, tag, user_index =>
    match find ds group tag user_index with
    | some r => some r
    | none => if d.hasAddress group tag user_index then some d else none

/-- Modelled from the spec: `write(file, buffer, group, tag, userIndex,
countOverride)` of section 4.4, the member `binary_file_write` whose definition
is not among the sources. One chunk is appended: the type and location of the
buffer, the address, the element count (`num_to_write` if it is positive, the
full count otherwise) and that many elements of the payload. `io_ok` tells
whether the file operation succeeds. -/
def binary_file_write (b : LocatedBuffer) (io_ok : Bool) (file : ContainerFile)
    (id_group id_tag : Nat) (user_index : Int) (num_to_write : Int) :
    Except Failure ContainerFile :=
  match size_of b.mem.type with
  | none => .error .fatal
  | some es =>
    if io_ok = false then .error .IOError
    else
      .ok (file ++
        [{ type := b.mem.type, location := b.mem.location, group := id_group,
           tag := id_tag, user_index := user_index,
           num_elements :=
             if num_to_write > 0 then num_to_write.toNat else b.mem.num_elements.toNat,
           payload := b.payload.take
             ((if num_to_write > 0 then num_to_write.toNat else b.mem.num_elements.toNat)
               * es) }])

/-- Modelled from the spec: `read(file, index, group, tag, userIndex)` of
section 4.4, the member `binary_file_read` whose definition is not among the
sources. The index is extended over the whole file, the chunk is resolved with
`find`, and the destination buffer `dst`, whose type is the type the caller
demands, is sized and typed to match the chunk and receives the payload;
`addr` is the address of the payload block it then holds. The result is the
buffer and the extended index. -/
def binary_file_read (dst : LocatedBuffer) (addr : Nat) (file : ContainerFile)
    (index : TagIndex) (id_group id_tag : Nat) (user_index : Int) :
    Except Failure (LocatedBuffer × TagIndex) :=
  match find (scan file index).entries id_group id_tag user_index with
  | none => .error .NotFoundError
  | some d =>
    if d.type ≠ dst.mem.type then .error .TypeMismatchError
    else
      match size_of d.type with
      | none => .error .fatal
      | some es =>
        if d.payload_length ≠ d.num_elements * es then .error .FormatError
        else
          match file[d.offset]? with
          | none => .error .IOError
          | some c =>
            .ok ({ mem := { dst.mem with
                              type := d.type, num_elements := d.num_elements, data := addr },
                   payload := c.payload },
                 scan file index)

/-- An index that was built by scanning `file`, or an earlier, shorter state of
it: its descriptors are those of the first `end_offset` chunks. -/
def TagIndex.covers (index : TagIndex) (file : ContainerFile) : Prop :=
  index.end_offset ≤ file.length ∧
  index.entries = describeFrom 0 (file.take index.end_offset)

instance (index : TagIndex) (file : ContainerFile) : Decidable (index.covers file) := by
  unfold TagIndex.covers
  infer_instance

/-- The index of a file that has not been accessed yet. -/
def TagIndex.empty : TagIndex := { entries := [], end_offset := 0 }

/-- An owning double-complex-matrix buffer of 16 elements on the host, whose
1024 payload bytes are 0, 1, ..., 255, 0, 1, ... -/
def matrixBuf : LocatedBuffer :=
  { mem := { type := OSKAR_DOUBLE_COMPLEX_MATRIX, location := OSKAR_LOCATION_CPU,
             num_elements := 16, owner := OSKAR_TRUE, data := 4096 },
    payload := (List.range 1024).map fun i => i % 256 }

/-- An empty owning double-complex-matrix buffer to read into. -/
def matrixDst : LocatedBuffer :=
  { mem := { type := OSKAR_DOUBLE_COMPLEX_MATRIX, location := OSKAR_LOCATION_CPU,
             num_elements := 0, owner := OSKAR_TRUE, data := 0 },
    payload := [] }

/-- An owning byte buffer with the four payload bytes 1, 2, 3, 4. -/
def bytesBuf1 : LocatedBuffer :=
  { mem := { type := OSKAR_CHAR, location := OSKAR_LOCATION_CPU,
             num_elements := 4, owner := OSKAR_TRUE, data := 4096 },
    payload := [1, 2, 3, 4] }

/-- An owning byte buffer with the four payload bytes 9, 8, 7, 6. -/
def bytesBuf2 : LocatedBuffer :=
  { mem := { type := OSKAR_CHAR, location := OSKAR_LOCATION_CPU,
             num_elements := 4, owner := OSKAR_TRUE, data := 8192 },
    payload := [9, 8, 7, 6] }

/-- An allocator that always provides the block at address 4096. -/
def sampleAlloc : Int → Nat → Nat := fun _ _ => 4096


/-- The chunk that writing `bytesBuf1` to the address (2, 9, 0) appends. -/
def firstChunk : Chunk :=
  { type := OSKAR_CHAR, location := OSKAR_LOCATION_CPU, group := 2, tag := 9,
    user_index := 0, num_elements := 4, payload := [1, 2, 3, 4] }

/-- The chunk that writing `bytesBuf2` to the address (2, 9, 0) appends. -/
def secondChunk : Chunk :=
  { type := OSKAR_CHAR, location := OSKAR_LOCATION_CPU, group := 2, tag := 9,
    user_index := 0, num_elements := 4, payload := [9, 8, 7, 6] }

/-- An empty owning byte buffer to read into. -/
def bytesDst : LocatedBuffer :=
  { mem := { type := OSKAR_CHAR, location := OSKAR_LOCATION_CPU,
             num_elements := 0, owner := OSKAR_TRUE, data := 0 },
    payload := [] }


/-- The owning byte buffer of four zero bytes at address 4096 on the host. -/
def zeroBytesBuf : LocatedBuffer :=
  { mem := { type := OSKAR_CHAR, location := OSKAR_LOCATION_CPU, num_elements := 4,
             owner := OSKAR_TRUE, data := 4096 },
    payload := [0, 0, 0, 0] }


/-! ## What the status of `oskar_mem_assign` is computed from -/

/-- What `oskar_mem_assign` reads of `dst` before it returns a status: nothing
of a null pointer, and `dst->type` and `dst->owner` otherwise. -/
def dstView (h : Heap) (dst : Option Nat) : Option (Int × Int) :=
  dst.bind fun d => h[d]?.map fun m => (m.type, m.owner)

/-- What `oskar_mem_assign` reads of `src` before it returns a status: nothing
of a null pointer, and `src->type` otherwise. -/
def srcView (h : Heap) (src : Option Nat) : Option Int :=
  src.bind fun s => h[s]?.map fun m => m.type

/-- The three checks of `oskar_mem_assign`, in their order, on what the views
hold. -/
def statusFrom : Option (Int × Int) → Option Int → Int
  | _, none => OSKAR_ERR_INVALID_ARGUMENT
  | none, some _ => OSKAR_ERR_INVALID_ARGUMENT
  | some (dstType, dstOwner), some srcType =>
    if srcType ≠ dstType then OSKAR_ERR_TYPE_MISMATCH
    else if dstOwner = OSKAR_TRUE then OSKAR_ERR_INVALID_ARGUMENT
    else OSKAR_SUCCESS

/-- The eight named element types of the type enumerator. -/
inductive NamedType where
  | CHAR
  | INT
  | SINGLE
  | DOUBLE
  | SINGLE_COMPLEX
  | DOUBLE_COMPLEX
  | SINGLE_COMPLEX_MATRIX
  | DOUBLE_COMPLEX_MATRIX
deriving DecidableEq, Repr

/-- The enumerator value of a named element type. -/
def NamedType.tag : NamedType → Int
  | .CHAR => OSKAR_CHAR
  | .INT => OSKAR_INT
  | .SINGLE => OSKAR_SINGLE
  | .DOUBLE => OSKAR_DOUBLE
  | .SINGLE_COMPLEX => OSKAR_SINGLE_COMPLEX
  | .DOUBLE_COMPLEX => OSKAR_DOUBLE_COMPLEX
  | .SINGLE_COMPLEX_MATRIX => OSKAR_SINGLE_COMPLEX_MATRIX
  | .DOUBLE_COMPLEX_MATRIX => OSKAR_DOUBLE_COMPLEX_MATRIX

/-- A double-precision host buffer of 8 elements whose owner flag is 2:
non-zero, and not `OSKAR_TRUE`. -/
def flag2Buf : oskar_Mem :=
  { type := OSKAR_DOUBLE, location := OSKAR_LOCATION_CPU, num_elements := 8,
    owner := 2, data := 8192 }


/-! ## Helper lemmas -/

theorem List.set_of_getElem? {α : Type} (l : List α) (i : Nat) (a : α)
    (h : l[i]? = some a) : l.set i a = l := by
  induction l generalizing i with
  | nil => simp
  | cons x xs ih =>
    cases i with
    | zero => simp at h; simp [h]
    | succ n => simp at h; simp [ih n h]

/-- What `oskar_mem_assign` computes on two valid pointers. -/
theorem oskar_mem_assign_valid (h : Heap) (d s : Nat) (md ms : oskar_Mem)
    (hd : h[d]? = some md) (hs : h[s]? = some ms) :
    oskar_mem_assign h (some d) (some s) =
      some (if ms.type ≠ md.type then (OSKAR_ERR_TYPE_MISMATCH, h)
            else if md.owner = OSKAR_TRUE then (OSKAR_ERR_INVALID_ARGUMENT, h)
            else (OSKAR_SUCCESS, h.set d (aliasOf md ms))) := by
  have hlt : d < h.length := by
    rcases List.getElem?_eq_some_iff.mp hd with ⟨hl, _⟩
    exact hl
  by_cases ht : ms.type ≠ md.type
  · simp [oskar_mem_assign, hd, hs, ht]
  · by_cases ho : md.owner = OSKAR_TRUE
    · simp [oskar_mem_assign, hd, hs, ht, ho]
    · by_cases hds : d = s
      · subst hds
        have hm : ms = md := by rw [hd] at hs; exact (Option.some.inj hs).symm
        subst hm
        simp [oskar_mem_assign, hd, ht, ho, copyField, List.getElem?_set, hlt, aliasOf]
      · simp [oskar_mem_assign, hd, hs, ht, ho, copyField, List.getElem?_set, hlt, aliasOf,
          hds]

theorem countP_set_of_not (p : oskar_Mem → Bool) (h : Heap) (d : Nat) (md x : oskar_Mem)
    (hd : h[d]? = some md) (hmd : p md = false) (hx : p x = false) :
    (h.set d x).countP p = h.countP p := by
  induction h generalizing d with
  | nil => simp
  | cons y ys ih =>
    cases d with
    | zero =>
      simp at hd
      subst hd
      simp [List.countP_cons, hmd, hx]
    | succ n =>
      simp at hd
      simp [List.countP_cons, ih n hd]

/-- A call of `oskar_mem_assign` that returns dereferences only valid
pointers: each non-null argument addresses a structure of the heap. -/
theorem oskar_mem_assign_cases (h : Heap) (dst src : Option Nat) (st : Int) (h' : Heap)
    (hr : oskar_mem_assign h dst src = some (st, h')) :
    ((dst = none ∨ src = none) ∧ st = OSKAR_ERR_INVALID_ARGUMENT ∧ h' = h) ∨
    ∃ d s md ms, dst = some d ∧ src = some s ∧ h[d]? = some md ∧ h[s]? = some ms ∧
      ((ms.type ≠ md.type ∧ st = OSKAR_ERR_TYPE_MISMATCH ∧ h' = h) ∨
       (ms.type = md.type ∧ md.owner = OSKAR_TRUE ∧
          st = OSKAR_ERR_INVALID_ARGUMENT ∧ h' = h) ∨
       (ms.type = md.type ∧ md.owner ≠ OSKAR_TRUE ∧
          st = OSKAR_SUCCESS ∧ h' = h.set d (aliasOf md ms))) := by
  cases src with
  | none =>
    simp [oskar_mem_assign] at hr
    exact Or.inl ⟨Or.inr rfl, hr.1.symm, hr.2.symm⟩
  | some s =>
    cases dst with
    | none =>
      simp [oskar_mem_assign] at hr
      exact Or.inl ⟨Or.inl rfl, hr.1.symm, hr.2.symm⟩
    | some d =>
      right
      cases hs : h[s]? with
      | none => simp [oskar_mem_assign, hs] at hr
      | some ms =>
        cases hd : h[d]? with
        | none => simp [oskar_mem_assign, hs, hd] at hr
        | some md =>
          refine ⟨d, s, md, ms, rfl, rfl, hd, hs, ?_⟩
          rw [oskar_mem_assign_valid h d s md ms hd hs] at hr
          by_cases ht : ms.type ≠ md.type
          · simp [ht] at hr
            exact Or.inl ⟨ht, hr.1.symm, hr.2.symm⟩
          · have ht2 : ms.type = md.type := not_not.mp ht
            by_cases ho : md.owner = OSKAR_TRUE
            · simp [ht2, ho] at hr
              exact Or.inr (Or.inl ⟨ht2, ho, hr.1.symm, hr.2.symm⟩)
            · simp [ht2, ho] at hr
              exact Or.inr (Or.inr ⟨ht2, ho, hr.1.symm, hr.2.symm⟩)

/-! ## `oskar_mem_assign`: the contract -/

/-- C1: for every non-null `src` and non-null `dst` (the addresses `s` and `d`
of structures of the heap) with `dst->type == src->type` and a `dst` that does
not own its memory, `oskar_mem_assign` returns `OSKAR_SUCCESS`, which is 0, and
afterwards the `data`, `num_elements`, `location` and `type` of `*dst` equal
those of `*src`, which is what it was before the call. -/
theorem oskar_mem_assign_success (h : Heap) (d s : Nat) (md ms : oskar_Mem)
    (hd : h[d]? = some md) (hs : h[s]? = some ms)
    (ht : md.type = ms.type) (ho : md.owner ≠ OSKAR_TRUE) :
    ∃ (h' : Heap) (md' ms' : oskar_Mem),
      oskar_mem_assign h (some d) (some s) = some (OSKAR_SUCCESS, h') ∧
      OSKAR_SUCCESS = 0 ∧ h'[d]? = some md' ∧ h'[s]? = some ms' ∧ ms' = ms ∧
      md'.data = ms'.data ∧ md'.num_elements = ms'.num_elements ∧
      md'.location = ms'.location ∧ md'.type = ms'.type := by
  have hlt : d < h.length := (List.getElem?_eq_some_iff.mp hd).1
  refine ⟨h.set d (aliasOf md ms), aliasOf md ms, ms, ?_, rfl, ?_, ?_, rfl, rfl, rfl, rfl,
    rfl⟩
  · rw [oskar_mem_assign_valid h d s md ms hd hs]
    simp [ht, ho]
  · simp [List.getElem?_set, hlt]
  · by_cases hds : d = s
    · subst hds
      have hm : ms = md := by rw [hd] at hs; exact (Option.some.inj hs).symm
      subst hm
      simp [List.getElem?_set, hlt, aliasOf]
    · simp [List.getElem?_set, hds, hs]

/-- Witness of C1: a non-owning host view at address 0 is assigned from the
device buffer at address 1. -/
theorem oskar_mem_assign_success_witness :
    [viewBuf, srcBuf][0]? = some viewBuf ∧ [viewBuf, srcBuf][1]? = some srcBuf ∧
    viewBuf.type = srcBuf.type ∧ viewBuf.owner ≠ OSKAR_TRUE ∧
    ∃ (h' : Heap) (md' ms' : oskar_Mem),
      oskar_mem_assign [viewBuf, srcBuf] (some 0) (some 1) = some (OSKAR_SUCCESS, h') ∧
      OSKAR_SUCCESS = 0 ∧ h'[0]? = some md' ∧ h'[1]? = some ms' ∧ ms' = srcBuf ∧
      md'.data = ms'.data ∧ md'.num_elements = ms'.num_elements ∧
      md'.location = ms'.location ∧ md'.type = ms'.type :=
  ⟨rfl, rfl, by decide, by decide,
    oskar_mem_assign_success [viewBuf, srcBuf] 0 1 viewBuf srcBuf rfl rfl (by decide)
      (by decide)⟩

/-- C2 as amended: for every non-null `src` and every non-null `dst` of the same
type that owns its memory, `oskar_mem_assign` fails with the non-zero status
`OSKAR_ERR_INVALID_ARGUMENT`, the status it also returns for a null argument,
and leaves the heap, so `*dst`, as it was: `dst` is not made an alias. -/
theorem oskar_mem_assign_owned_dst (h : Heap) (d s : Nat) (md ms : oskar_Mem)
    (hd : h[d]? = some md) (hs : h[s]? = some ms)
    (ht : md.type = ms.type) (ho : md.owner = OSKAR_TRUE) :
    oskar_mem_assign h (some d) (some s) = some (OSKAR_ERR_INVALID_ARGUMENT, h) ∧
    OSKAR_ERR_INVALID_ARGUMENT ≠ 0 ∧
    oskar_mem_assign h (some d) none = some (OSKAR_ERR_INVALID_ARGUMENT, h) ∧
    oskar_mem_assign h none (some s) = some (OSKAR_ERR_INVALID_ARGUMENT, h) := by
  refine ⟨?_, by decide, rfl, rfl⟩
  rw [oskar_mem_assign_valid h d s md ms hd hs]
  simp [ht, ho]

/-- Witness of the amended C2: the owning buffer at address 0 is the
destination. -/
theorem oskar_mem_assign_owned_dst_witness :
    [ownedBuf, srcBuf][0]? = some ownedBuf ∧ [ownedBuf, srcBuf][1]? = some srcBuf ∧
    ownedBuf.type = srcBuf.type ∧ ownedBuf.owner = OSKAR_TRUE ∧
    oskar_mem_assign [ownedBuf, srcBuf] (some 0) (some 1) =
      some (OSKAR_ERR_INVALID_ARGUMENT, [ownedBuf, srcBuf]) ∧
    OSKAR_ERR_INVALID_ARGUMENT ≠ 0 ∧
    oskar_mem_assign [ownedBuf, srcBuf] (some 0) none =
      some (OSKAR_ERR_INVALID_ARGUMENT, [ownedBuf, srcBuf]) ∧
    oskar_mem_assign [ownedBuf, srcBuf] none (some 1) =
      some (OSKAR_ERR_INVALID_ARGUMENT, [ownedBuf, srcBuf]) :=
  ⟨rfl, rfl, by decide, by decide,
    oskar_mem_assign_owned_dst [ownedBuf, srcBuf] 0 1 ownedBuf srcBuf rfl rfl (by decide)
      (by decide)⟩

/-- Counterexample to C2 as stated: with the owning buffer at address 0 as
destination the status is `OSKAR_ERR_INVALID_ARGUMENT`; the call with a null
`src` and the non-owning `viewBuf` as destination returns the same status, so
the status is not of the ownership error kind. -/
theorem oskar_mem_assign_owned_dst_not_ownership_error :
    oskar_mem_assign [ownedBuf, srcBuf] (some 0) (some 1) =
      some (OSKAR_ERR_INVALID_ARGUMENT, [ownedBuf, srcBuf]) ∧
    oskar_mem_assign [viewBuf, srcBuf] (some 0) none =
      some (OSKAR_ERR_INVALID_ARGUMENT, [viewBuf, srcBuf]) ∧
    viewBuf.owner ≠ OSKAR_TRUE ∧
    ¬ IsOwnershipError OSKAR_ERR_INVALID_ARGUMENT := by
  refine ⟨by decide, by decide, by decide, ?_⟩
  rintro ⟨_, hall⟩
  obtain ⟨d, md, hdst, hmd, hown⟩ :=
    hall [viewBuf, srcBuf] (some 0) none [viewBuf, srcBuf] (by decide)
  have hd0 : d = 0 := (Option.some.inj hdst).symm
  subst hd0
  have hv : md = viewBuf := by
    have : some viewBuf = some md := hmd
    exact (Option.some.inj this).symm
  subst hv
  exact absurd hown (by decide)

/-- C3: for every non-null `src` and non-null `dst` whose type fields differ,
`oskar_mem_assign` fails with `OSKAR_ERR_TYPE_MISMATCH`, a non-zero status,
whatever the ownership flag of `dst` is, and the heap is as before. -/
theorem oskar_mem_assign_type_mismatch (h : Heap) (d s : Nat) (md ms : oskar_Mem)
    (hd : h[d]? = some md) (hs : h[s]? = some ms) (ht : md.type ≠ ms.type) :
    oskar_mem_assign h (some d) (some s) = some (OSKAR_ERR_TYPE_MISMATCH, h) ∧
    OSKAR_ERR_TYPE_MISMATCH ≠ OSKAR_SUCCESS := by
  refine ⟨?_, by decide⟩
  rw [oskar_mem_assign_valid h d s md ms hd hs]
  simp [Ne.symm ht]

/-- Witness of C3: an owning double-precision destination and a
single-precision source. -/
theorem oskar_mem_assign_type_mismatch_witness :
    [ownedBuf, singleBuf][0]? = some ownedBuf ∧
    [ownedBuf, singleBuf][1]? = some singleBuf ∧
    ownedBuf.type ≠ singleBuf.type ∧
    oskar_mem_assign [ownedBuf, singleBuf] (some 0) (some 1) =
      some (OSKAR_ERR_TYPE_MISMATCH, [ownedBuf, singleBuf]) ∧
    OSKAR_ERR_TYPE_MISMATCH ≠ OSKAR_SUCCESS :=
  ⟨rfl, rfl, by decide,
    oskar_mem_assign_type_mismatch [ownedBuf, singleBuf] 0 1 ownedBuf singleBuf rfl rfl
      (by decide)⟩

/-- C4: `oskar_mem_assign` is atomic on failure. Whenever it returns a non-zero
status the heap is exactly as before the call, so every field of `*dst` and of
`*src` is unchanged and an owning `dst` keeps its own data pointer. -/
theorem oskar_mem_assign_failure_atomic (h : Heap) (dst src : Option Nat) (st : Int)
    (h' : Heap) (hr : oskar_mem_assign h dst src = some (st, h')) (hst : st ≠ 0) :
    h' = h ∧ (∀ d, dst = some d → h'[d]? = h[d]?) ∧ (∀ s, src = some s → h'[s]? = h[s]?) := by
  have hh : h' = h := by
    rcases oskar_mem_assign_cases h dst src st h' hr with
      ⟨_, _, hh⟩ | ⟨d, s, md, ms, _, _, _, _, hc⟩
    · exact hh
    · rcases hc with ⟨_, _, hh⟩ | ⟨_, _, _, hh⟩ | ⟨_, _, hs, _⟩
      · exact hh
      · exact hh
      · exact absurd hs hst
  subst hh
  exact ⟨rfl, fun _ _ => rfl, fun _ _ => rfl⟩

/-- Witness of C4: the call with an owning destination fails and changes
nothing. -/
theorem oskar_mem_assign_failure_atomic_witness :
    oskar_mem_assign [ownedBuf, srcBuf] (some 0) (some 1) =
      some (OSKAR_ERR_INVALID_ARGUMENT, [ownedBuf, srcBuf]) ∧
    OSKAR_ERR_INVALID_ARGUMENT ≠ 0 ∧
    ([ownedBuf, srcBuf] : Heap) = [ownedBuf, srcBuf] ∧
    (∀ d, some 0 = some d → ([ownedBuf, srcBuf] : Heap)[d]? = [ownedBuf, srcBuf][d]?) ∧
    (∀ s, some 1 = some s → ([ownedBuf, srcBuf] : Heap)[s]? = [ownedBuf, srcBuf][s]?) :=
  ⟨by decide, by decide,
    oskar_mem_assign_failure_atomic [ownedBuf, srcBuf] (some 0) (some 1)
      OSKAR_ERR_INVALID_ARGUMENT [ownedBuf, srcBuf] (by decide) (by decide)⟩

/-- C5: `oskar_mem_assign` changes no owner flag (that of `*dst` included) and
does not modify `*src`; after a successful call `*dst` still fails the
ownership test, the number of owners of every payload is what it was, and a
heap in which every payload has at most one owner keeps that property. -/
theorem oskar_mem_assign_ownership_frame (h : Heap) (dst src : Option Nat) (st : Int)
    (h' : Heap) (hr : oskar_mem_assign h dst src = some (st, h')) :
    h'.map oskar_Mem.owner = h.map oskar_Mem.owner ∧
    (∀ s, src = some s → h'[s]? = h[s]?) ∧
    (st = OSKAR_SUCCESS →
      ∀ d s md' ms', dst = some d → src = some s → h'[d]? = some md' →
        h'[s]? = some ms' → md'.owned = false ∧ md'.data = ms'.data) ∧
    (∀ p, ownerCount h' p = ownerCount h p) ∧
    (ExclusiveOwnership h → ExclusiveOwnership h') := by
  have hne1 : OSKAR_ERR_INVALID_ARGUMENT ≠ OSKAR_SUCCESS := by decide
  have hne2 : OSKAR_ERR_TYPE_MISMATCH ≠ OSKAR_SUCCESS := by decide
  have hsame : ∀ e : Int, e ≠ OSKAR_SUCCESS → st = e → h' = h →
      h'.map oskar_Mem.owner = h.map oskar_Mem.owner ∧
      (∀ s, src = some s → h'[s]? = h[s]?) ∧
      (st = OSKAR_SUCCESS →
        ∀ d s md' ms', dst = some d → src = some s → h'[d]? = some md' →
          h'[s]? = some ms' → md'.owned = false ∧ md'.data = ms'.data) ∧
      (∀ p, ownerCount h' p = ownerCount h p) ∧
      (ExclusiveOwnership h → ExclusiveOwnership h') := by
    intro e he hst hh
    subst hh
    subst hst
    exact ⟨rfl, fun _ _ => rfl, fun h0 => absurd h0 he, fun _ => rfl, fun hx => hx⟩
  rcases oskar_mem_assign_cases h dst src st h' hr with
    ⟨_, hst, hh⟩ | ⟨d, s, md, ms, hdst, hsrc, hd, hs, hc⟩
  · exact hsame _ hne1 hst hh
  · rcases hc with ⟨_, hst, hh⟩ | ⟨_, _, hst, hh⟩ | ⟨ht, ho, _, hh⟩
    · exact hsame _ hne2 hst hh
    · exact hsame _ hne1 hst hh
    · have hlt : d < h.length := (List.getElem?_eq_some_iff.mp hd).1
      have hown : (aliasOf md ms).owned = false := by
        simp [oskar_Mem.owned, aliasOf, ho]
      have hown0 : md.owned = false := by
        simp [oskar_Mem.owned, ho]
      have hcount : ∀ p, ownerCount h' p = ownerCount h p := by
        intro p
        rw [hh]
        exact countP_set_of_not _ h d md (aliasOf md ms) hd (by simp [hown0])
          (by simp [hown])
      have hsrc' : h'[s]? = h[s]? := by
        rw [hh]
        by_cases hds : d = s
        · subst hds
          have hm : ms = md := by rw [hd] at hs; exact (Option.some.inj hs).symm
          subst hm
          simp [List.getElem?_set, hlt, aliasOf, hd]
        · simp [List.getElem?_set, hds]
      refine ⟨?_, ?_, ?_, hcount, ?_⟩
      · rw [hh, List.map_set]
        apply List.set_of_getElem?
        simp [hd, aliasOf]
      · intro s0 hs0
        have hs1 : s = s0 := Option.some.inj (hsrc.symm.trans hs0)
        subst hs1
        exact hsrc'
      · intro _ d0 s0 md' ms' hd0 hs0 hmd' hms'
        have hd1 : d = d0 := Option.some.inj (hdst.symm.trans hd0)
        have hs1 : s = s0 := Option.some.inj (hsrc.symm.trans hs0)
        subst hd1
        subst hs1
        rw [hsrc', hs] at hms'
        rw [hh] at hmd'
        simp [List.getElem?_set, hlt] at hmd'
        rw [← hmd', ← Option.some.inj hms']
        exact ⟨hown, rfl⟩
      · intro hex p hp
        rw [hcount p]
        exact hex p hp

/-- Witness of C5: the successful assignment of the owning device buffer at
address 1 to the non-owning view at address 0, in a heap where every payload
has one owner. -/
theorem oskar_mem_assign_ownership_frame_witness :
    oskar_mem_assign [viewBuf, srcBuf] (some 0) (some 1) =
      some (OSKAR_SUCCESS, [aliasOf viewBuf srcBuf, srcBuf]) ∧
    ExclusiveOwnership [viewBuf, srcBuf] ∧
    (([aliasOf viewBuf srcBuf, srcBuf] : Heap).map oskar_Mem.owner =
        ([viewBuf, srcBuf] : Heap).map oskar_Mem.owner ∧
      (∀ s, some 1 = some s →
        ([aliasOf viewBuf srcBuf, srcBuf] : Heap)[s]? = ([viewBuf, srcBuf] : Heap)[s]?) ∧
      (OSKAR_SUCCESS = OSKAR_SUCCESS →
        ∀ d s md' ms', some 0 = some d → some 1 = some s →
          ([aliasOf viewBuf srcBuf, srcBuf] : Heap)[d]? = some md' →
          ([aliasOf viewBuf srcBuf, srcBuf] : Heap)[s]? = some ms' →
          md'.owned = false ∧ md'.data = ms'.data) ∧
      (∀ p, ownerCount [aliasOf viewBuf srcBuf, srcBuf] p = ownerCount [viewBuf, srcBuf] p) ∧
      (ExclusiveOwnership [viewBuf, srcBuf] →
        ExclusiveOwnership [aliasOf viewBuf srcBuf, srcBuf])) :=
  ⟨by decide,
    by
      intro p _
      by_cases hp : p = 4096
      · subst hp; decide
      · have h0 : ownerCount [viewBuf, srcBuf] p = 0 := by
          simp [ownerCount, oskar_Mem.owned, viewBuf, srcBuf, List.countP_cons]
          exact ⟨fun h1 => hp h1.symm, fun h1 => absurd h1 (by decide)⟩
        omega,
    oskar_mem_assign_ownership_frame [viewBuf, srcBuf] (some 0) (some 1) OSKAR_SUCCESS
      [aliasOf viewBuf srcBuf, srcBuf] (by decide)⟩

/-! ## `oskar_Mem::is_null` -/

/-- C6 as amended: `is_null()` is derived purely from the data pointer. Any two
buffers with equal data pointers give the same result, and a buffer is null
exactly when its data pointer is 0. -/
theorem is_null_from_data (a b : oskar_Mem) (hab : a.data = b.data) :
    a.is_null = b.is_null ∧ (a.is_null = true ↔ a.data = 0) := by
  simp [oskar_Mem.is_null, hab]

/-- Witness of the amended C6: two buffers that share the data address 4096 and
differ in element count and ownership. -/
theorem is_null_from_data_witness :
    emptyViewBuf.data = srcBuf.data ∧
    emptyViewBuf.is_null = srcBuf.is_null ∧
    (emptyViewBuf.is_null = true ↔ emptyViewBuf.data = 0) :=
  ⟨rfl, is_null_from_data emptyViewBuf srcBuf rfl⟩

/-- Counterexample to C6 as stated: `emptyViewBuf` and `viewBuf` have the same
type and the same element count, 0, and differ in `is_null()`; `emptyViewBuf`
has no elements and is not null, `unallocatedBuf` records 16 elements and is
null. -/
theorem is_null_not_from_type_and_count :
    emptyViewBuf.type = viewBuf.type ∧
    emptyViewBuf.num_elements = viewBuf.num_elements ∧
    emptyViewBuf.is_null ≠ viewBuf.is_null ∧
    (emptyViewBuf.num_elements = 0 ∧ emptyViewBuf.is_null = false) ∧
    (unallocatedBuf.num_elements ≠ 0 ∧ unallocatedBuf.is_null = true) := by
  decide

/-! ## The type enumerator -/

/-- C7: each of the eight named element types has exactly one of the four
element-kind bits set, and `OSKAR_COMPLEX` and `OSKAR_MATRIX` share no bit with
an element-kind bit or with each other. -/
theorem named_types_one_kind_bit :
    (countKindBits OSKAR_CHAR = 1 ∧ countKindBits OSKAR_INT = 1 ∧
      countKindBits OSKAR_SINGLE = 1 ∧ countKindBits OSKAR_DOUBLE = 1 ∧
      countKindBits OSKAR_SINGLE_COMPLEX = 1 ∧ countKindBits OSKAR_DOUBLE_COMPLEX = 1 ∧
      countKindBits OSKAR_SINGLE_COMPLEX_MATRIX = 1 ∧
      countKindBits OSKAR_DOUBLE_COMPLEX_MATRIX = 1) ∧
    (Int.land OSKAR_COMPLEX OSKAR_CHAR = 0 ∧ Int.land OSKAR_COMPLEX OSKAR_INT = 0 ∧
      Int.land OSKAR_COMPLEX OSKAR_SINGLE = 0 ∧ Int.land OSKAR_COMPLEX OSKAR_DOUBLE = 0) ∧
    (Int.land OSKAR_MATRIX OSKAR_CHAR = 0 ∧ Int.land OSKAR_MATRIX OSKAR_INT = 0 ∧
      Int.land OSKAR_MATRIX OSKAR_SINGLE = 0 ∧ Int.land OSKAR_MATRIX OSKAR_DOUBLE = 0) ∧
    Int.land OSKAR_COMPLEX OSKAR_MATRIX = 0 ∧
    (OSKAR_CHAR = 0x01 ∧ OSKAR_INT = 0x02 ∧ OSKAR_SINGLE = 0x04 ∧ OSKAR_DOUBLE = 0x08) := by
  decide

/-- C8: the numeric values of the type tags: the four element kinds are bits 0
to 3, `OSKAR_COMPLEX` is bit 5, `OSKAR_MATRIX` is bit 6, and the composites
evaluate to 0x24, 0x28, 0x64 and 0x68. -/
theorem type_tag_values :
    (OSKAR_CHAR = 0x01 ∧ OSKAR_CHAR = 2 ^ 0) ∧
    (OSKAR_INT = 0x02 ∧ OSKAR_INT = 2 ^ 1) ∧
    (OSKAR_SINGLE = 0x04 ∧ OSKAR_SINGLE = 2 ^ 2) ∧
    (OSKAR_DOUBLE = 0x08 ∧ OSKAR_DOUBLE = 2 ^ 3) ∧
    (OSKAR_COMPLEX = 0x20 ∧ OSKAR_COMPLEX = 2 ^ 5) ∧
    (OSKAR_MATRIX = 0x40 ∧ OSKAR_MATRIX = 2 ^ 6) ∧
    OSKAR_SINGLE_COMPLEX = 0x24 ∧ OSKAR_DOUBLE_COMPLEX = 0x28 ∧
    OSKAR_SINGLE_COMPLEX_MATRIX = 0x64 ∧ OSKAR_DOUBLE_COMPLEX_MATRIX = 0x68 := by
  decide

/-- C9: every enumerator of the type enumeration, and every composite of one
element-kind bit OR-ed with `OSKAR_COMPLEX` or not and with `OSKAR_MATRIX` or
not, is in the range 1..255 and is unchanged by conversion to one unsigned
byte. -/
theorem type_tags_fit_in_byte :
    (FitsInByte OSKAR_CHAR ∧ FitsInByte OSKAR_INT ∧ FitsInByte OSKAR_SINGLE ∧
      FitsInByte OSKAR_DOUBLE ∧ FitsInByte OSKAR_COMPLEX ∧ FitsInByte OSKAR_MATRIX ∧
      FitsInByte OSKAR_SINGLE_COMPLEX ∧ FitsInByte OSKAR_DOUBLE_COMPLEX ∧
      FitsInByte OSKAR_SINGLE_COMPLEX_MATRIX ∧ FitsInByte OSKAR_DOUBLE_COMPLEX_MATRIX) ∧
    (∀ k ∈ [OSKAR_CHAR, OSKAR_INT, OSKAR_SINGLE, OSKAR_DOUBLE],
      ∀ c ∈ [0, OSKAR_COMPLEX], ∀ m ∈ [0, OSKAR_MATRIX],
        FitsInByte (Int.lor (Int.lor k c) m)) := by
  decide

/-- C10: the type composed as `createTestData` does, from a precision
`OSKAR_SINGLE` or `OSKAR_DOUBLE` and any matrix flag, is the named composite
constant, and the precision, the complex flag and the matrix flag are
recovered from it as `type & 0x0F`, `(type & OSKAR_COMPLEX) != 0` and
`(type & OSKAR_MATRIX) != 0`. -/
theorem createTestData_type_roundtrip (matrix : Int) :
    createTestData_type OSKAR_SINGLE matrix =
      (if matrix ≠ 0 then OSKAR_SINGLE_COMPLEX_MATRIX else OSKAR_SINGLE_COMPLEX) ∧
    createTestData_type OSKAR_DOUBLE matrix =
      (if matrix ≠ 0 then OSKAR_DOUBLE_COMPLEX_MATRIX else OSKAR_DOUBLE_COMPLEX) ∧
    (Int.land (createTestData_type OSKAR_SINGLE matrix) 0x0F = OSKAR_SINGLE ∧
      Int.land (createTestData_type OSKAR_SINGLE matrix) OSKAR_COMPLEX ≠ 0 ∧
      (Int.land (createTestData_type OSKAR_SINGLE matrix) OSKAR_MATRIX ≠ 0 ↔ matrix ≠ 0)) ∧
    (Int.land (createTestData_type OSKAR_DOUBLE matrix) 0x0F = OSKAR_DOUBLE ∧
      Int.land (createTestData_type OSKAR_DOUBLE matrix) OSKAR_COMPLEX ≠ 0 ∧
      (Int.land (createTestData_type OSKAR_DOUBLE matrix) OSKAR_MATRIX ≠ 0 ↔ matrix ≠ 0)) := by
  by_cases hm : matrix = 0
  · subst hm
    decide
  · simp only [createTestData_type, hm, ne_eq, not_false_eq_true, if_true, iff_true]
    decide


/-! ## `oskar_cudaf_mul_mat2c_mat2c` -/

/-- C11: taking both forms of `oskar_cudaf_mul_c_c_f` as the complex
multiplication `cmul`, for matrices held in distinct objects
`oskar_cudaf_mul_mat2c_mat2c_f` leaves in `m1` the product `m1 * m2` in that
order (`a = a1 a2 + b1 c2`, `b = a1 b2 + b1 d2`, `c = c1 a2 + d1 c2`,
`d = c1 b2 + d1 d2`), and leaves `m2` and every other object unchanged. The
number type `R` is any type with an addition that is commutative, a
subtraction and a multiplication, so that the rounding arithmetic of `float`
and `double` is covered as well as exact arithmetic: each `+` of the four
entries is the one addition of `R` that the function itself performs (its
`+=` on the real and on the imaginary part), and where the arithmetic of `R`
is exact the entries are the exact matrix product. -/
theorem oskar_cudaf_mul_mat2c_mat2c_f_product {R : Type} [Add R] [Sub R] [Mul R]
    (hcomm : ∀ x y : R, x + y = y + x)
    (mul2 mul3 : float2 R → float2 R → float2 R)
    (hmul2 : ∀ p q, mul2 p q = cmul p q) (hmul3 : ∀ p q, mul3 p q = cmul p q)
    (σ : MatStore R) (m1 m2 : Nat) (hne : m1 ≠ m2) :
    (oskar_cudaf_mul_mat2c_mat2c_f mul2 mul3 σ m1 m2 m1).a =
      cadd (cmul (σ m1).a (σ m2).a) (cmul (σ m1).b (σ m2).c) ∧
    (oskar_cudaf_mul_mat2c_mat2c_f mul2 mul3 σ m1 m2 m1).b =
      cadd (cmul (σ m1).a (σ m2).b) (cmul (σ m1).b (σ m2).d) ∧
    (oskar_cudaf_mul_mat2c_mat2c_f mul2 mul3 σ m1 m2 m1).c =
      cadd (cmul (σ m1).c (σ m2).a) (cmul (σ m1).d (σ m2).c) ∧
    (oskar_cudaf_mul_mat2c_mat2c_f mul2 mul3 σ m1 m2 m1).d =
      cadd (cmul (σ m1).c (σ m2).b) (cmul (σ m1).d (σ m2).d) ∧
    oskar_cudaf_mul_mat2c_mat2c_f mul2 mul3 σ m1 m2 m2 = σ m2 ∧
    ∀ r, r ≠ m1 → oskar_cudaf_mul_mat2c_mat2c_f mul2 mul3 σ m1 m2 r = σ r := by
  have h2 : mul2 = cmul := funext fun p => funext fun q => hmul2 p q
  have h3 : mul3 = cmul := funext fun p => funext fun q => hmul3 p q
  subst h2
  subst h3
  have hne' : m2 ≠ m1 := Ne.symm hne
  refine ⟨?_, ?_, ?_, ?_, ?_, ?_⟩
  · simp [oskar_cudaf_mul_mat2c_mat2c_f, Function.update_same, Function.update_noteq hne',
      cadd]
  · simp only [oskar_cudaf_mul_mat2c_mat2c_f, Function.update_same,
      Function.update_noteq hne', cadd, float2.mk.injEq]
    exact ⟨hcomm _ _, hcomm _ _⟩
  · simp [oskar_cudaf_mul_mat2c_mat2c_f, Function.update_same, Function.update_noteq hne',
      cadd]
  · simp only [oskar_cudaf_mul_mat2c_mat2c_f, Function.update_same,
      Function.update_noteq hne', cadd, float2.mk.injEq]
    exact ⟨hcomm _ _, hcomm _ _⟩
  · simp [oskar_cudaf_mul_mat2c_mat2c_f, Function.update_noteq hne']
  · intro r hr
    simp [oskar_cudaf_mul_mat2c_mat2c_f, Function.update_noteq hr]

/-- Witness of C11: the integer matrices `[1+2i 3+4i; 5+6i 7+8i]` at address 0
and `[2+i -i; 3 1+i]` at address 1; the product is
`[9+17i 1+6i; 25+41i 5+10i]`. -/
theorem oskar_cudaf_mul_mat2c_mat2c_f_product_witness :
    (∀ x y : Int, x + y = y + x) ∧
    (0 : Nat) ≠ 1 ∧
    oskar_cudaf_mul_mat2c_mat2c_f cmul cmul sampleMats 0 1 0 =
      { a := { x := 9, y := 17 }, b := { x := 1, y := 6 },
        c := { x := 25, y := 41 }, d := { x := 5, y := 10 } } ∧
    ((oskar_cudaf_mul_mat2c_mat2c_f cmul cmul sampleMats 0 1 0).a =
      cadd (cmul (sampleMats 0).a (sampleMats 1).a) (cmul (sampleMats 0).b (sampleMats 1).c) ∧
    (oskar_cudaf_mul_mat2c_mat2c_f cmul cmul sampleMats 0 1 0).b =
      cadd (cmul (sampleMats 0).a (sampleMats 1).b) (cmul (sampleMats 0).b (sampleMats 1).d) ∧
    (oskar_cudaf_mul_mat2c_mat2c_f cmul cmul sampleMats 0 1 0).c =
      cadd (cmul (sampleMats 0).c (sampleMats 1).a) (cmul (sampleMats 0).d (sampleMats 1).c) ∧
    (oskar_cudaf_mul_mat2c_mat2c_f cmul cmul sampleMats 0 1 0).d =
      cadd (cmul (sampleMats 0).c (sampleMats 1).b) (cmul (sampleMats 0).d (sampleMats 1).d) ∧
    oskar_cudaf_mul_mat2c_mat2c_f cmul cmul sampleMats 0 1 1 = sampleMats 1 ∧
    ∀ r, r ≠ 0 → oskar_cudaf_mul_mat2c_mat2c_f cmul cmul sampleMats 0 1 r = sampleMats r) :=
  ⟨Int.add_comm, by decide, by decide,
    oskar_cudaf_mul_mat2c_mat2c_f_product Int.add_comm cmul cmul (fun _ _ => rfl)
      (fun _ _ => rfl) sampleMats 0 1 (by decide)⟩

/-- C19: over one number type and with one complex-multiply helper, the
single-precision and the double-precision 2x2 complex multiply leave the same
store, for every pair of matrix references. -/
theorem oskar_cudaf_mul_mat2c_mat2c_f_eq_d {R : Type} [Add R]
    (mul2 mul3 : float2 R → float2 R → float2 R) (σ : MatStore R) (m1 m2 : Nat) :
    oskar_cudaf_mul_mat2c_mat2c_f mul2 mul3 σ m1 m2 =
      oskar_cudaf_mul_mat2c_mat2c_d mul2 mul3 σ m1 m2 := by
  funext r
  simp only [oskar_cudaf_mul_mat2c_mat2c_f, oskar_cudaf_mul_mat2c_mat2c_d]

/-! ## `oskar_mem_assign`: totality -/

/-- C18: on pointers that are null or valid `oskar_mem_assign` returns a
status; the status is `OSKAR_SUCCESS` if and only if `src` and `dst` are both
non-null, `src->type == dst->type` and `dst->owner != OSKAR_TRUE`; a null `src`
or a null `dst` yields `OSKAR_ERR_INVALID_ARGUMENT` and an unchanged heap, and
does so on every heap whatever the other pointer is, so without a
dereference. -/
theorem oskar_mem_assign_total (h : Heap) (dst src : Option Nat)
    (hd : validPtr h dst = true) (hs : validPtr h src = true) :
    ∃ (st : Int) (h' : Heap), oskar_mem_assign h dst src = some (st, h') ∧
      (st = OSKAR_SUCCESS ↔
        ∃ d s md ms, dst = some d ∧ src = some s ∧ h[d]? = some md ∧ h[s]? = some ms ∧
          ms.type = md.type ∧ md.owner ≠ OSKAR_TRUE) ∧
      ((src = none ∨ dst = none) → st = OSKAR_ERR_INVALID_ARGUMENT ∧ h' = h) ∧
      (∀ (g : Heap) (p : Option Nat),
        oskar_mem_assign g p none = some (OSKAR_ERR_INVALID_ARGUMENT, g) ∧
        oskar_mem_assign g none p = some (OSKAR_ERR_INVALID_ARGUMENT, g)) := by
  have hnull : ∀ (g : Heap) (p : Option Nat),
      oskar_mem_assign g p none = some (OSKAR_ERR_INVALID_ARGUMENT, g) ∧
      oskar_mem_assign g none p = some (OSKAR_ERR_INVALID_ARGUMENT, g) := by
    intro g p
    cases p <;> exact ⟨rfl, rfl⟩
  have hia : OSKAR_ERR_INVALID_ARGUMENT ≠ OSKAR_SUCCESS := by decide
  have htm : OSKAR_ERR_TYPE_MISMATCH ≠ OSKAR_SUCCESS := by decide
  cases src with
  | none =>
    refine ⟨OSKAR_ERR_INVALID_ARGUMENT, h, (hnull h dst).1, ?_, fun _ => ⟨rfl, rfl⟩, hnull⟩
    constructor
    · intro h0; exact absurd h0 hia
    · rintro ⟨_, _, _, _, _, h0, _⟩; cases h0
  | some s =>
    cases dst with
    | none =>
      refine ⟨OSKAR_ERR_INVALID_ARGUMENT, h, (hnull h (some s)).2, ?_,
        fun _ => ⟨rfl, rfl⟩, hnull⟩
      constructor
      · intro h0; exact absurd h0 hia
      · rintro ⟨_, _, _, _, h0, _⟩; cases h0
    | some d =>
      have hdl : d < h.length := by simpa [validPtr] using hd
      have hsl : s < h.length := by simpa [validPtr] using hs
      have hdg : h[d]? = some h[d] := List.getElem?_eq_getElem hdl
      have hsg : h[s]? = some h[s] := List.getElem?_eq_getElem hsl
      have hv := oskar_mem_assign_valid h d s h[d] h[s] hdg hsg
      by_cases ht : h[s].type ≠ h[d].type
      · rw [if_pos ht] at hv
        refine ⟨_, _, hv, ?_, ?_, hnull⟩
        · constructor
          · intro h0; exact absurd h0 htm
          · rintro ⟨d0, s0, md, ms, h1, h2, h3, h4, h5, _⟩
            cases h1; cases h2
            rw [hdg] at h3; rw [hsg] at h4
            cases h3; cases h4
            exact absurd h5 ht
        · rintro (h0 | h0) <;> cases h0
      · have ht2 : h[s].type = h[d].type := not_not.mp ht
        rw [if_neg ht] at hv
        by_cases ho : h[d].owner = OSKAR_TRUE
        · rw [if_pos ho] at hv
          refine ⟨_, _, hv, ?_, ?_, hnull⟩
          · constructor
            · intro h0; exact absurd h0 hia
            · rintro ⟨d0, s0, md, ms, h1, h2, h3, h4, _, h6⟩
              cases h1; cases h2
              rw [hdg] at h3
              cases h3
              exact absurd ho h6
          · rintro (h0 | h0) <;> cases h0
        · rw [if_neg ho] at hv
          refine ⟨_, _, hv, ?_, ?_, hnull⟩
          · constructor
            · intro _; exact ⟨d, s, h[d], h[s], rfl, rfl, hdg, hsg, ht2, ho⟩
            · intro _; rfl
          · rintro (h0 | h0) <;> cases h0

/-- Witness of C18: the view at address 0 and the buffer at address 1 are
valid pointers. -/
theorem oskar_mem_assign_total_witness :
    validPtr [viewBuf, srcBuf] (some 0) = true ∧ validPtr [viewBuf, srcBuf] (some 1) = true ∧
    ∃ (st : Int) (h' : Heap),
      oskar_mem_assign [viewBuf, srcBuf] (some 0) (some 1) = some (st, h') ∧
      (st = OSKAR_SUCCESS ↔
        ∃ d s md ms, some 0 = some d ∧ some 1 = some s ∧
          ([viewBuf, srcBuf] : Heap)[d]? = some md ∧
          ([viewBuf, srcBuf] : Heap)[s]? = some ms ∧
          ms.type = md.type ∧ md.owner ≠ OSKAR_TRUE) ∧
      (((some 1 : Option Nat) = none ∨ (some 0 : Option Nat) = none) →
        st = OSKAR_ERR_INVALID_ARGUMENT ∧ h' = [viewBuf, srcBuf]) ∧
      (∀ (g : Heap) (p : Option Nat),
        oskar_mem_assign g p none = some (OSKAR_ERR_INVALID_ARGUMENT, g) ∧
        oskar_mem_assign g none p = some (OSKAR_ERR_INVALID_ARGUMENT, g)) :=
  ⟨by decide, by decide,
    oskar_mem_assign_total [viewBuf, srcBuf] (some 0) (some 1) (by decide) (by decide)⟩


/-! ## The telescope file loaders -/

/-- C20: for the gain-phase and the permitted-beams loader alike, the
station-level `load` calls the station file loader exactly when
`cwd.exists` holds of the loader's file name, once, with
`cwd.absoluteFilePath` of that name and the caller's station and status, and
leaves what that call leaves; when the file is absent the station, the status,
the file map and the call record are unchanged; the telescope-level `load`
changes nothing. -/
theorem telescope_loaders_call_when_file_present {Station Telescope : Type}
    (loader : Station → String → Int → Station × Int)
    (s : LoadState Station) (t : LoadState Telescope) (cwd : oskar_Dir)
    (num_subdirs depth : Int) :
    (oskar_TelescopeLoadGainPhase.load_station loader s cwd num_subdirs depth =
      if cwd.exists_ "gain_phase.txt" then
        { obj := (loader s.obj (cwd.absoluteFilePath "gain_phase.txt") s.status).1,
          filemap := s.filemap,
          status := (loader s.obj (cwd.absoluteFilePath "gain_phase.txt") s.status).2,
          calls := s.calls ++ [cwd.absoluteFilePath "gain_phase.txt"] }
      else s) ∧
    (oskar_TelescopeLoadPermittedBeams.load_station loader s cwd num_subdirs depth =
      if cwd.exists_ "permitted_beams.txt" then
        { obj := (loader s.obj (cwd.absoluteFilePath "permitted_beams.txt") s.status).1,
          filemap := s.filemap,
          status := (loader s.obj (cwd.absoluteFilePath "permitted_beams.txt") s.status).2,
          calls := s.calls ++ [cwd.absoluteFilePath "permitted_beams.txt"] }
      else s) ∧
    ((oskar_TelescopeLoadGainPhase.load_station loader s cwd num_subdirs depth).calls ≠
        s.calls ↔ cwd.exists_ "gain_phase.txt" = true) ∧
    ((oskar_TelescopeLoadPermittedBeams.load_station loader s cwd num_subdirs depth).calls ≠
        s.calls ↔ cwd.exists_ "permitted_beams.txt" = true) ∧
    oskar_TelescopeLoadGainPhase.load_telescope t cwd num_subdirs = t ∧
    oskar_TelescopeLoadPermittedBeams.load_telescope t cwd num_subdirs = t := by
  refine ⟨rfl, rfl, ?_, ?_, rfl, rfl⟩
  · by_cases he : cwd.exists_ "gain_phase.txt" = true
    · simp [oskar_TelescopeLoadGainPhase.load_station,
        oskar_TelescopeLoadGainPhase.gain_phase_file, he]
    · simp [oskar_TelescopeLoadGainPhase.load_station,
        oskar_TelescopeLoadGainPhase.gain_phase_file, he]
  · by_cases he : cwd.exists_ "permitted_beams.txt" = true
    · simp [oskar_TelescopeLoadPermittedBeams.load_station,
        oskar_TelescopeLoadPermittedBeams.permitted_beams_file, he]
    · simp [oskar_TelescopeLoadPermittedBeams.load_station,
        oskar_TelescopeLoadPermittedBeams.permitted_beams_file, he]


/-! ## The container: helper lemmas -/

theorem describeFrom_append (k : Nat) (xs ys : List Chunk) :
    describeFrom k (xs ++ ys) = describeFrom k xs ++ describeFrom (k + xs.length) ys := by
  induction xs generalizing k with
  | nil => simp [describeFrom]
  | cons x xs ih =>
    have h1 : k + (x :: xs).length = k + 1 + xs.length := by
      simp only [List.length_cons]; omega
    rw [h1]
    show describe k x :: describeFrom (k + 1) (xs ++ ys) =
      describe k x :: (describeFrom (k + 1) xs ++ describeFrom (k + 1 + xs.length) ys)
    rw [ih]

theorem scan_entries_of_covers (file : ContainerFile) (index : TagIndex)
    (hc : index.covers file) : (scan file index).entries = describeFrom 0 file := by
  obtain ⟨hle, hent⟩ := hc
  have hsplit := describeFrom_append 0 (file.take index.end_offset)
    (file.drop index.end_offset)
  rw [List.take_append_drop, List.length_take, Nat.min_eq_left hle, Nat.zero_add] at hsplit
  simp only [scan]
  rw [hsplit, ← hent]

theorem covers_append (file more : ContainerFile) (index : TagIndex)
    (hc : index.covers file) : index.covers (file ++ more) := by
  obtain ⟨hle, hent⟩ := hc
  refine ⟨?_, ?_⟩
  · rw [List.length_append]; omega
  · rw [List.take_append_of_le_length hle]
    exact hent

theorem covers_empty (file : ContainerFile) : TagIndex.empty.covers file := by
  simp [TagIndex.covers, TagIndex.empty, describeFrom]

theorem find_append_some (ds1 ds2 : List TagDescriptor) (g t : Nat) (u : Int)
    (r : TagDescriptor) (h : find ds2 g t u = some r) :
    find (ds1 ++ ds2) g t u = some r := by
  induction ds1 with
  | nil => simpa using h
  | cons d ds ih =>
    show (match find (ds ++ ds2) g t u with
      | some r => some r
      | none => if d.hasAddress g t u then some d else none) = some r
    rw [ih]

theorem find_describeFrom_none (k : Nat) (cs : List Chunk) (g t : Nat) (u : Int)
    (hno : ∀ c ∈ cs, c.hasAddress g t u = false) :
    find (describeFrom k cs) g t u = none := by
  induction cs generalizing k with
  | nil => simp [describeFrom, find]
  | cons c cs ih =>
    have h1 : c.hasAddress g t u = false := hno c (List.mem_cons_self _ _)
    have h2 : (describe k c).hasAddress g t u = false := h1
    simp only [describeFrom, find, ih (k + 1) (fun x hx => hno x (List.mem_cons_of_mem _ hx)),
      h2]
    simp

/-- In a file whose last chunk with the address is `c`, `find` resolves the
address to the descriptor of `c`. -/
theorem find_last_match (earlier later : ContainerFile) (c : Chunk) (g t : Nat) (u : Int)
    (hc : c.hasAddress g t u = true) (hno : ∀ x ∈ later, x.hasAddress g t u = false) :
    find (describeFrom 0 (earlier ++ c :: later)) g t u =
      some (describe earlier.length c) := by
  have h2 : (describe earlier.length c).hasAddress g t u = true := hc
  rw [describeFrom_append, Nat.zero_add]
  apply find_append_some
  simp only [describeFrom, find, find_describeFrom_none _ later g t u hno, h2]
  simp

/-- What `binary_file_read` does on a file whose last chunk with the address is
`c`, with an index that covers the file. -/
theorem binary_file_read_eq (dst : LocatedBuffer) (addr : Nat)
    (earlier later : ContainerFile) (c : Chunk) (index : TagIndex) (g t : Nat) (u : Int)
    (hc : c.hasAddress g t u = true) (hno : ∀ x ∈ later, x.hasAddress g t u = false)
    (hidx : index.covers (earlier ++ c :: later)) :
    binary_file_read dst addr (earlier ++ c :: later) index g t u =
      if c.type ≠ dst.mem.type then .error .TypeMismatchError
      else
        match size_of c.type with
        | none => .error .fatal
        | some es =>
          if c.payload.length ≠ c.num_elements * es then .error .FormatError
          else
            .ok ({ mem := { dst.mem with
                              type := c.type, num_elements := c.num_elements, data := addr },
                   payload := c.payload },
                 scan (earlier ++ c :: later) index) := by
  have hget : (earlier ++ c :: later)[earlier.length]? = some c := by
    rw [List.getElem?_append_right (Nat.le_refl _)]
    simp
  unfold binary_file_read
  rw [scan_entries_of_covers _ _ hidx, find_last_match earlier later c g t u hc hno]
  simp only [describe]
  by_cases hty : c.type ≠ dst.mem.type
  · simp [hty]
  · simp only [hty, if_false]
    cases hes : size_of c.type with
    | none => rfl
    | some es =>
      by_cases hf : c.payload.length ≠ c.num_elements * es
      · simp [hf]
      · simp only [hf, if_false, hget]


/-! ## The binary container: round trip and overwrite by append -/

/-- C12: write then read is a bit-exact round trip. For every buffer `b` of a
recognized type whose payload has `num_elements * size_of(type)` bytes,
`binary_file_write(file, group, tag, user_index, 0)` succeeds and appends to the
file, and `binary_file_read` of that address into a destination of the type of
`b`, with an index that covers the file as it was and with no later chunk of
that address in the file, yields a buffer with the type, the element count and
the payload bytes of `b`. -/
theorem binary_file_write_read_roundtrip (b dst : LocatedBuffer) (addr : Nat)
    (file later : ContainerFile) (index : TagIndex) (g t : Nat) (u : Int) (es : Nat)
    (hes : size_of b.mem.type = some es)
    (hn : 0 ≤ b.mem.num_elements)
    (hlen : b.payload.length = b.mem.num_elements.toNat * es)
    (hidx : index.covers file)
    (hlater : ∀ c ∈ later, c.hasAddress g t u = false)
    (hdst : dst.mem.type = b.mem.type) :
    ∃ (file' : ContainerFile) (r : LocatedBuffer) (index' : TagIndex),
      binary_file_write b true file g t u 0 = .ok file' ∧
      file'.take file.length = file ∧
      binary_file_read dst addr (file' ++ later) index g t u = .ok (r, index') ∧
      r.mem.type = b.mem.type ∧ r.mem.num_elements = b.mem.num_elements ∧
      r.payload = b.payload := by
  have hpay : b.payload.take (b.mem.num_elements.toNat * es) = b.payload := by
    rw [← hlen]; exact List.take_length _
  have hw : binary_file_write b true file g t u 0 =
      .ok (file ++ [{ type := b.mem.type, location := b.mem.location, group := g, tag := t,
                      user_index := u, num_elements := b.mem.num_elements.toNat,
                      payload := b.payload }]) := by
    simp [binary_file_write, hes, hpay]
  have hr : binary_file_read dst addr
      (file ++ [{ type := b.mem.type, location := b.mem.location, group := g, tag := t,
                  user_index := u, num_elements := b.mem.num_elements.toNat,
                  payload := b.payload }] ++ later) index g t u =
      .ok ({ mem := { dst.mem with
                        type := b.mem.type, num_elements := b.mem.num_elements.toNat,
                        data := addr },
             payload := b.payload },
           scan (file ++ { type := b.mem.type, location := b.mem.location, group := g,
                           tag := t, user_index := u,
                           num_elements := b.mem.num_elements.toNat,
                           payload := b.payload } :: later) index) := by
    rw [List.append_assoc, List.singleton_append]
    rw [binary_file_read_eq dst addr file later _ index g t u (by simp [Chunk.hasAddress])
      hlater (covers_append file _ index hidx)]
    rw [if_neg (not_not.mpr hdst.symm)]
    simp only [hes]
    rw [if_neg (not_not.mpr hlen)]
  exact ⟨_, _, _, hw, by simp, hr, rfl, Int.toNat_of_nonneg hn, rfl⟩

/-- Witness of C12: the double-complex-matrix buffer of 16 elements, written to
an empty file at group 1, tag 5, user index 0 and read back with a fresh
index. -/
theorem binary_file_write_read_roundtrip_witness :
    size_of matrixBuf.mem.type = some 64 ∧
    matrixBuf.payload.length = matrixBuf.mem.num_elements.toNat * 64 ∧
    TagIndex.empty.covers [] ∧
    matrixDst.mem.type = matrixBuf.mem.type ∧
    ∃ (file' : ContainerFile) (r : LocatedBuffer) (index' : TagIndex),
      binary_file_write matrixBuf true [] 1 5 0 0 = .ok file' ∧
      file'.take ([] : ContainerFile).length = [] ∧
      binary_file_read matrixDst 8192 (file' ++ []) TagIndex.empty 1 5 0 = .ok (r, index') ∧
      r.mem.type = matrixBuf.mem.type ∧
      r.mem.num_elements = matrixBuf.mem.num_elements ∧
      r.payload = matrixBuf.payload :=
  ⟨by decide, by simp [matrixBuf], covers_empty [], rfl,
    binary_file_write_read_roundtrip matrixBuf matrixDst 8192 [] [] TagIndex.empty 1 5 0 64
      (by decide) (by decide) (by simp [matrixBuf]) (covers_empty []) (by simp) rfl⟩

/-- C13: overwrite by append. In a file whose most recently appended chunk with
the address `(group, tag, user_index)` is `c`, whatever chunks with that address
were appended earlier, every successful `binary_file_read` of the address
returns the payload, type and count of `c`, and the read succeeds when `c` has
the type of the destination and a payload of `num_elements * size_of(type)`
bytes. -/
theorem binary_file_read_most_recent (dst : LocatedBuffer) (addr : Nat)
    (earlier later : ContainerFile) (c : Chunk) (index : TagIndex) (g t : Nat) (u : Int)
    (hc : c.hasAddress g t u = true) (hno : ∀ x ∈ later, x.hasAddress g t u = false)
    (hidx : index.covers (earlier ++ c :: later)) :
    (∀ (r : LocatedBuffer) (index' : TagIndex),
      binary_file_read dst addr (earlier ++ c :: later) index g t u = .ok (r, index') →
      r.payload = c.payload ∧ r.mem.type = c.type ∧ r.mem.num_elements = c.num_elements) ∧
    (∀ es : Nat, c.type = dst.mem.type → size_of c.type = some es →
      c.payload.length = c.num_elements * es →
      ∃ (r : LocatedBuffer) (index' : TagIndex),
        binary_file_read dst addr (earlier ++ c :: later) index g t u = .ok (r, index') ∧
        r.payload = c.payload) := by
  rw [binary_file_read_eq dst addr earlier later c index g t u hc hno hidx]
  constructor
  · intro r index' hr
    by_cases hty : c.type ≠ dst.mem.type
    · simp [hty] at hr
    · simp only [hty, if_false] at hr
      cases hes : size_of c.type with
      | none => simp [hes] at hr
      | some es =>
        simp only [hes] at hr
        by_cases hf : c.payload.length ≠ c.num_elements * es
        · simp [hf] at hr
        · simp only [hf, if_false, Except.ok.injEq, Prod.mk.injEq] at hr
          rw [← hr.1]
          exact ⟨rfl, rfl, rfl⟩
  · intro es hty hes hf
    rw [if_neg (not_not.mpr hty)]
    simp only [hes]
    rw [if_neg (not_not.mpr hf)]
    exact ⟨_, _, rfl, rfl⟩

/-- Witness of C13: the address (2, 9, 0) is written twice to an empty file,
first with the payload 1, 2, 3, 4 and then with 9, 8, 7, 6; the read returns
the second payload. -/
theorem binary_file_read_most_recent_witness :
    ((binary_file_write bytesBuf1 true [] 2 9 0 0).bind fun f =>
        binary_file_write bytesBuf2 true f 2 9 0 0) = .ok ([firstChunk] ++ secondChunk :: []) ∧
    firstChunk.hasAddress 2 9 0 = true ∧ firstChunk.payload ≠ secondChunk.payload ∧
    secondChunk.hasAddress 2 9 0 = true ∧
    TagIndex.empty.covers ([firstChunk] ++ secondChunk :: []) ∧
    ((∀ (r : LocatedBuffer) (index' : TagIndex),
      binary_file_read bytesDst 8192 ([firstChunk] ++ secondChunk :: []) TagIndex.empty 2 9 0 =
        .ok (r, index') →
      r.payload = secondChunk.payload ∧ r.mem.type = secondChunk.type ∧
        r.mem.num_elements = secondChunk.num_elements) ∧
    (∀ es : Nat, secondChunk.type = bytesDst.mem.type → size_of secondChunk.type = some es →
      secondChunk.payload.length = secondChunk.num_elements * es →
      ∃ (r : LocatedBuffer) (index' : TagIndex),
        binary_file_read bytesDst 8192 ([firstChunk] ++ secondChunk :: []) TagIndex.empty
          2 9 0 = .ok (r, index') ∧
        r.payload = secondChunk.payload)) :=
  ⟨rfl, by decide, by decide, by decide, covers_empty _,
    binary_file_read_most_recent bytesDst 8192 [firstChunk] [] secondChunk TagIndex.empty
      2 9 0 (by decide) (by simp) (covers_empty _)⟩


/-! ## The Located Buffer: construction, resize and view -/

/-- The results of `create`. -/
theorem create_ok_cases (alloc : Int → Nat → Nat) (init : Nat → Nat)
    (type location : Int) (count : Nat) (owner : Int) (b : LocatedBuffer)
    (hc : create alloc init type location count owner = .ok b) :
    (count = 0 ∧
      b = { mem := { type := type, location := location, num_elements := 0,
                     owner := owner, data := 0 },
            payload := [] }) ∨
    (count ≠ 0 ∧ ∃ es, size_of type = some es ∧ alloc location (count * es) ≠ 0 ∧
      b = { mem := { type := type, location := location, num_elements := count,
                     owner := owner, data := alloc location (count * es) },
            payload := (List.range (count * es)).map init }) := by
  unfold create at hc
  by_cases h0 : count = 0
  · left
    simp only [h0, if_true, Except.ok.injEq] at hc
    exact ⟨h0, hc.symm⟩
  · right
    simp only [h0, if_false] at hc
    cases hes : size_of type with
    | none => simp [hes] at hc
    | some es =>
      simp only [hes] at hc
      by_cases ha : alloc location (count * es) = 0
      · simp [ha] at hc
      · simp only [ha, if_false, Except.ok.injEq] at hc
        exact ⟨h0, es, rfl, ha, hc.symm⟩

/-- C14: a buffer constructed with `oskar_Mem(type, location, count, owner)`
satisfies `is_null()` if and only if `count == 0`, and has the type, location,
count and owner it was constructed with; construction with count 0 succeeds,
and construction with another count succeeds whenever the type is recognized
and the allocator provides the block. -/
theorem create_is_null_iff (alloc : Int → Nat → Nat) (init : Nat → Nat)
    (type location : Int) (count : Nat) (owner : Int) (b : LocatedBuffer)
    (hc : create alloc init type location count owner = .ok b) :
    (b.mem.is_null = true ↔ count = 0) ∧
    b.mem.type = type ∧ b.mem.location = location ∧ b.mem.num_elements = count ∧
    b.mem.owner = owner ∧
    (∃ b0, create alloc init type location 0 owner = .ok b0 ∧ b0.mem.is_null = true) ∧
    (∀ es, count ≠ 0 → size_of type = some es → alloc location (count * es) ≠ 0 →
      ∃ b1, create alloc init type location count owner = .ok b1 ∧
        b1.mem.is_null = false) := by
  have hgen : ∀ es, count ≠ 0 → size_of type = some es → alloc location (count * es) ≠ 0 →
      ∃ b1, create alloc init type location count owner = .ok b1 ∧
        b1.mem.is_null = false := by
    intro es h0 hes ha
    refine ⟨{ mem := { type := type, location := location, num_elements := count,
                       owner := owner, data := alloc location (count * es) },
              payload := (List.range (count * es)).map init }, ?_, ?_⟩
    · simp [create, h0, hes, ha]
    · simp [oskar_Mem.is_null, ha]
  rcases create_ok_cases alloc init type location count owner b hc with
    ⟨h0, hb⟩ | ⟨h0, es, _, ha, hb⟩
  · subst hb
    subst h0
    exact ⟨by simp [oskar_Mem.is_null], rfl, rfl, rfl, rfl, ⟨_, rfl, rfl⟩, hgen⟩
  · subst hb
    exact ⟨by simp [oskar_Mem.is_null, ha, h0], rfl, rfl, rfl, rfl, ⟨_, rfl, rfl⟩, hgen⟩

/-- Witness of C14: four bytes on the host from an allocator that provides the
block at address 4096. -/
theorem create_is_null_iff_witness :
    create sampleAlloc (fun _ => 0) OSKAR_CHAR OSKAR_LOCATION_CPU 4 OSKAR_TRUE =
      .ok zeroBytesBuf ∧
    ((zeroBytesBuf.mem.is_null = true ↔ 4 = 0) ∧
    zeroBytesBuf.mem.type = OSKAR_CHAR ∧ zeroBytesBuf.mem.location = OSKAR_LOCATION_CPU ∧
    zeroBytesBuf.mem.num_elements = ((4 : Nat) : Int) ∧ zeroBytesBuf.mem.owner = OSKAR_TRUE ∧
    (∃ b0, create sampleAlloc (fun _ => 0) OSKAR_CHAR OSKAR_LOCATION_CPU 0 OSKAR_TRUE = .ok b0 ∧
      b0.mem.is_null = true) ∧
    (∀ es, 4 ≠ 0 → size_of OSKAR_CHAR = some es →
      sampleAlloc OSKAR_LOCATION_CPU (4 * es) ≠ 0 →
      ∃ b1, create sampleAlloc (fun _ => 0) OSKAR_CHAR OSKAR_LOCATION_CPU 4 OSKAR_TRUE =
          .ok b1 ∧ b1.mem.is_null = false)) :=
  ⟨rfl,
    create_is_null_iff sampleAlloc (fun _ => 0) OSKAR_CHAR OSKAR_LOCATION_CPU 4 OSKAR_TRUE
      zeroBytesBuf rfl⟩


/-- What a successful `resize` leaves. -/
theorem resize_ok (alloc : Int → Nat → Nat) (init : Nat → Nat) (b : LocatedBuffer)
    (n es : Nat) (hown : b.mem.owned = true) (hes : size_of b.mem.type = some es)
    (ha : n ≠ 0 → alloc b.mem.location (n * es) ≠ 0) :
    resize alloc init b n =
      .ok { mem := { b.mem with
                       num_elements := n,
                       data := if n = 0 then 0 else alloc b.mem.location (n * es) },
            payload := b.payload.take (n * es) ++
              (List.range (n * es - b.payload.length)).map
                fun i => init (b.payload.length + i) } := by
  unfold resize
  rw [if_neg (by simp [hown])]
  simp only [hes]
  rw [if_neg (fun h => ha h.1 h.2)]

/-- A successful `resize` preserves type and location. -/
theorem resize_preserves (alloc : Int → Nat → Nat) (init : Nat → Nat)
    (b b' : LocatedBuffer) (n : Nat) (hr : resize alloc init b n = .ok b') :
    b'.mem.type = b.mem.type ∧ b'.mem.location = b.mem.location := by
  unfold resize at hr
  split at hr
  · cases hr
  · split at hr
    · cases hr
    · split at hr
      · cases hr
      · rw [← Except.ok.inj hr]
        exact ⟨rfl, rfl⟩

/-- C15: for every owning buffer of a recognized type and all sizes `n` and
`m`, with allocators that provide the blocks, `resize(n)` and then `resize(m)`
succeed, the payload holds `n` and then `m` elements, the first `min(n, m)`
elements after the second resize are those after the first, and every
successful resize leaves type and location unchanged. -/
theorem resize_resize_preserves (alloc1 alloc2 : Int → Nat → Nat) (init1 init2 : Nat → Nat)
    (b : LocatedBuffer) (n m es : Nat)
    (hown : b.mem.owned = true) (hes : size_of b.mem.type = some es)
    (ha1 : n ≠ 0 → alloc1 b.mem.location (n * es) ≠ 0)
    (ha2 : m ≠ 0 → alloc2 b.mem.location (m * es) ≠ 0) :
    (∃ b1 b2, resize alloc1 init1 b n = .ok b1 ∧ resize alloc2 init2 b1 m = .ok b2 ∧
      b1.payload.length = n * es ∧ b2.payload.length = m * es ∧
      b2.payload.take (min n m * es) = b1.payload.take (min n m * es) ∧
      b1.mem.num_elements = n ∧ b2.mem.num_elements = m ∧
      b1.mem.type = b.mem.type ∧ b1.mem.location = b.mem.location ∧
      b2.mem.type = b.mem.type ∧ b2.mem.location = b.mem.location) ∧
    (∀ (alloc : Int → Nat → Nat) (init : Nat → Nat) (c c' : LocatedBuffer) (k : Nat),
      resize alloc init c k = .ok c' →
      c'.mem.type = c.mem.type ∧ c'.mem.location = c.mem.location) := by
  refine ⟨?_, resize_preserves⟩
  have h1 := resize_ok alloc1 init1 b n es hown hes ha1
  have hlen1 : (b.payload.take (n * es) ++
      (List.range (n * es - b.payload.length)).map
        fun i => init1 (b.payload.length + i)).length = n * es := by
    simp only [List.length_append, List.length_take, List.length_map, List.length_range]
    omega
  have h2 := resize_ok alloc2 init2
    { mem := { b.mem with
                 num_elements := n,
                 data := if n = 0 then 0 else alloc1 b.mem.location (n * es) },
      payload := b.payload.take (n * es) ++
        (List.range (n * es - b.payload.length)).map
          fun i => init1 (b.payload.length + i) }
    m es hown hes ha2
  refine ⟨_, _, h1, h2, hlen1, ?_, ?_, rfl, rfl, rfl, rfl, rfl, rfl⟩
  · simp only [List.length_append, List.length_take, List.length_map, List.length_range]
    omega
  · have hk : min n m * es ≤ m * es := Nat.mul_le_mul_right es (Nat.min_le_right n m)
    have hk2 : min n m * es ≤ n * es := Nat.mul_le_mul_right es (Nat.min_le_left n m)
    rw [List.take_append_of_le_length (by
      rw [List.length_take, hlen1]
      omega)]
    rw [List.take_take, Nat.min_eq_left hk]

/-- Witness of C15: the byte buffer 1, 2, 3, 4 is grown to six elements and
shrunk to two. -/
theorem resize_resize_preserves_witness :
    bytesBuf1.mem.owned = true ∧ size_of bytesBuf1.mem.type = some 1 ∧
    ((∃ b1 b2, resize sampleAlloc (fun _ => 7) bytesBuf1 6 = .ok b1 ∧
      resize sampleAlloc (fun _ => 7) b1 2 = .ok b2 ∧
      b1.payload.length = 6 * 1 ∧ b2.payload.length = 2 * 1 ∧
      b2.payload.take (min 6 2 * 1) = b1.payload.take (min 6 2 * 1) ∧
      b1.mem.num_elements = ((6 : Nat) : Int) ∧ b2.mem.num_elements = ((2 : Nat) : Int) ∧
      b1.mem.type = bytesBuf1.mem.type ∧ b1.mem.location = bytesBuf1.mem.location ∧
      b2.mem.type = bytesBuf1.mem.type ∧ b2.mem.location = bytesBuf1.mem.location) ∧
    (∀ (alloc : Int → Nat → Nat) (init : Nat → Nat) (c c' : LocatedBuffer) (k : Nat),
      resize alloc init c k = .ok c' →
      c'.mem.type = c.mem.type ∧ c'.mem.location = c.mem.location)) :=
  ⟨by decide, by decide,
    resize_resize_preserves sampleAlloc sampleAlloc (fun _ => 7) (fun _ => 7) bytesBuf1 6 2 1
      (by decide) (by decide) (fun _ => by decide) (fun _ => by decide)⟩

/-- C16: for every buffer of a recognized type and every offset and size with
`offset + size <= num_elements`, `get_pointer(offset, size)` returns a buffer
that does not own its memory, has the type and location of the source, has
`num_elements == size`, points `offset` elements into the payload and holds
the bytes of the elements `[offset, offset + size)`; when `offset + size`
exceeds `num_elements` the call fails with `RangeError`. -/
theorem get_pointer_view (b : LocatedBuffer) (offset size es : Nat)
    (hes : size_of b.mem.type = some es) :
    ((offset : Int) + (size : Int) ≤ b.mem.num_elements →
      ∃ v, get_pointer b offset size = .ok v ∧
        v.mem.owned = false ∧ v.mem.owner = OSKAR_FALSE ∧
        v.mem.type = b.mem.type ∧ v.mem.location = b.mem.location ∧
        v.mem.num_elements = size ∧
        v.mem.data = b.mem.data + offset * es ∧
        v.payload = (b.payload.drop (offset * es)).take (size * es) ∧
        (∀ i, i < size * es → v.payload[i]? = b.payload[offset * es + i]?)) ∧
    ((offset : Int) + (size : Int) > b.mem.num_elements →
      get_pointer b offset size = .error .RangeError) := by
  constructor
  · intro hle
    refine ⟨{ mem := { type := b.mem.type, location := b.mem.location,
                       num_elements := size, owner := OSKAR_FALSE,
                       data := b.mem.data + offset * es },
              payload := (b.payload.drop (offset * es)).take (size * es) },
      ?_, rfl, rfl, rfl, rfl, rfl, rfl, rfl, ?_⟩
    · unfold get_pointer
      rw [if_neg (not_lt.mpr hle)]
      simp only [hes]
    · intro i hi
      simp only [List.getElem?_take, hi, if_true, List.getElem?_drop]
  · intro hgt
    unfold get_pointer
    rw [if_pos hgt]

/-- Witness of C16: the elements 1 and 2 of the byte buffer 1, 2, 3, 4. -/
theorem get_pointer_view_witness :
    size_of bytesBuf1.mem.type = some 1 ∧
    get_pointer bytesBuf1 1 2 =
      .ok { mem := { type := OSKAR_CHAR, location := OSKAR_LOCATION_CPU, num_elements := 2,
                     owner := OSKAR_FALSE, data := 4097 },
            payload := [2, 3] } ∧
    get_pointer bytesBuf1 3 2 = .error .RangeError ∧
    ((((1 : Nat) : Int) + ((2 : Nat) : Int) ≤ bytesBuf1.mem.num_elements →
      ∃ v, get_pointer bytesBuf1 1 2 = .ok v ∧
        v.mem.owned = false ∧ v.mem.owner = OSKAR_FALSE ∧
        v.mem.type = bytesBuf1.mem.type ∧ v.mem.location = bytesBuf1.mem.location ∧
        v.mem.num_elements = ((2 : Nat) : Int) ∧
        v.mem.data = bytesBuf1.mem.data + 1 * 1 ∧
        v.payload = (bytesBuf1.payload.drop (1 * 1)).take (2 * 1) ∧
        (∀ i, i < 2 * 1 → v.payload[i]? = bytesBuf1.payload[1 * 1 + i]?)) ∧
    ((((1 : Nat) : Int) + ((2 : Nat) : Int) > bytesBuf1.mem.num_elements →
      get_pointer bytesBuf1 1 2 = .error .RangeError))) :=
  ⟨by decide, rfl, rfl, get_pointer_view bytesBuf1 1 2 1 (by decide)⟩


/-! ## `oskar_mem_assign`: status codes, precedence and the ownership test -/

/-- C21: a call that fails because `dst` owns its memory returns
`OSKAR_ERR_INVALID_ARGUMENT`, and that is the status of every call with a null
`src` and of every call with a null `dst`, on any heap: the statuses of the two
failures are equal. -/
theorem oskar_mem_assign_owned_same_status_as_null (h : Heap) (d s : Nat)
    (md ms : oskar_Mem) (hd : h[d]? = some md) (hs : h[s]? = some ms)
    (ht : md.type = ms.type) (ho : md.owner = OSKAR_TRUE) :
    (oskar_mem_assign h (some d) (some s)).map Prod.fst = some OSKAR_ERR_INVALID_ARGUMENT ∧
    (∀ (g : Heap) (p : Option Nat),
      (oskar_mem_assign h (some d) (some s)).map Prod.fst =
        (oskar_mem_assign g p none).map Prod.fst ∧
      (oskar_mem_assign h (some d) (some s)).map Prod.fst =
        (oskar_mem_assign g none p).map Prod.fst) := by
  have hv : (oskar_mem_assign h (some d) (some s)).map Prod.fst =
      some OSKAR_ERR_INVALID_ARGUMENT := by
    rw [oskar_mem_assign_valid h d s md ms hd hs]
    simp [ht, ho]
  refine ⟨hv, ?_⟩
  intro g p
  rw [hv]
  cases p <;> exact ⟨rfl, rfl⟩

/-- Witness of C21: the owning buffer at address 0 as destination, against the
calls with a null pointer on the same heap. -/
theorem oskar_mem_assign_owned_same_status_as_null_witness :
    ownedBuf.type = srcBuf.type ∧ ownedBuf.owner = OSKAR_TRUE ∧
    ((oskar_mem_assign [ownedBuf, srcBuf] (some 0) (some 1)).map Prod.fst =
      some OSKAR_ERR_INVALID_ARGUMENT ∧
    (∀ (g : Heap) (p : Option Nat),
      (oskar_mem_assign [ownedBuf, srcBuf] (some 0) (some 1)).map Prod.fst =
        (oskar_mem_assign g p none).map Prod.fst ∧
      (oskar_mem_assign [ownedBuf, srcBuf] (some 0) (some 1)).map Prod.fst =
        (oskar_mem_assign g none p).map Prod.fst)) :=
  ⟨by decide, by decide,
    oskar_mem_assign_owned_same_status_as_null [ownedBuf, srcBuf] 0 1 ownedBuf srcBuf rfl rfl
      (by decide) (by decide)⟩

/-- C22: the checks have the precedence null argument, then type, then
ownership. For non-null `src` and a non-null `dst` that owns its memory and has
a type different from that of `src`, the status is `OSKAR_ERR_TYPE_MISMATCH`,
which is not the status of the ownership failure; with a null pointer in place
of either argument the status is `OSKAR_ERR_INVALID_ARGUMENT`. -/
theorem oskar_mem_assign_check_precedence (h : Heap) (d s : Nat) (md ms : oskar_Mem)
    (hd : h[d]? = some md) (hs : h[s]? = some ms)
    (ht : md.type ≠ ms.type) (ho : md.owner = OSKAR_TRUE) :
    oskar_mem_assign h (some d) (some s) = some (OSKAR_ERR_TYPE_MISMATCH, h) ∧
    OSKAR_ERR_TYPE_MISMATCH ≠ OSKAR_ERR_INVALID_ARGUMENT ∧
    md.owned = true ∧
    oskar_mem_assign h (some d) none = some (OSKAR_ERR_INVALID_ARGUMENT, h) ∧
    oskar_mem_assign h none (some s) = some (OSKAR_ERR_INVALID_ARGUMENT, h) := by
  refine ⟨?_, by decide, by simp [oskar_Mem.owned, ho], rfl, rfl⟩
  rw [oskar_mem_assign_valid h d s md ms hd hs]
  simp [Ne.symm ht]

/-- Witness of C22: an owning double-precision destination and a
single-precision source. -/
theorem oskar_mem_assign_check_precedence_witness :
    ownedBuf.type ≠ singleBuf.type ∧ ownedBuf.owner = OSKAR_TRUE ∧
    (oskar_mem_assign [ownedBuf, singleBuf] (some 0) (some 1) =
      some (OSKAR_ERR_TYPE_MISMATCH, [ownedBuf, singleBuf]) ∧
    OSKAR_ERR_TYPE_MISMATCH ≠ OSKAR_ERR_INVALID_ARGUMENT ∧
    ownedBuf.owned = true ∧
    oskar_mem_assign [ownedBuf, singleBuf] (some 0) none =
      some (OSKAR_ERR_INVALID_ARGUMENT, [ownedBuf, singleBuf]) ∧
    oskar_mem_assign [ownedBuf, singleBuf] none (some 1) =
      some (OSKAR_ERR_INVALID_ARGUMENT, [ownedBuf, singleBuf])) :=
  ⟨by decide, by decide,
    oskar_mem_assign_check_precedence [ownedBuf, singleBuf] 0 1 ownedBuf singleBuf rfl rfl
      (by decide) (by decide)⟩

/-- C23: the ownership test is equality with `OSKAR_TRUE`. For a `dst` whose
owner flag is non-zero and different from `OSKAR_TRUE` and whose type equals
that of `src`, the call returns `OSKAR_SUCCESS` and `*dst` has the `data`,
`num_elements` and `location` of `*src`, with its owner flag as it was. -/
theorem oskar_mem_assign_owner_flag_not_true (h : Heap) (d s : Nat) (md ms : oskar_Mem)
    (hd : h[d]? = some md) (hs : h[s]? = some ms) (ht : md.type = ms.type)
    (ho0 : md.owner ≠ 0) (ho1 : md.owner ≠ OSKAR_TRUE) :
    ∃ (h' : Heap) (md' : oskar_Mem),
      oskar_mem_assign h (some d) (some s) = some (OSKAR_SUCCESS, h') ∧
      h'[d]? = some md' ∧ md'.data = ms.data ∧ md'.num_elements = ms.num_elements ∧
      md'.location = ms.location ∧ md'.owner = md.owner ∧ md'.owner ≠ 0 := by
  have hlt : d < h.length := (List.getElem?_eq_some_iff.mp hd).1
  refine ⟨h.set d (aliasOf md ms), aliasOf md ms, ?_, ?_, rfl, rfl, rfl, rfl, ho0⟩
  · rw [oskar_mem_assign_valid h d s md ms hd hs]
    simp [ht, ho1]
  · simp [List.getElem?_set, hlt]

/-- Witness of C23: the destination at address 0 has the owner flag 2 and the
data pointer 8192, and ends with the data pointer 4096 of the source. -/
theorem oskar_mem_assign_owner_flag_not_true_witness :
    flag2Buf.type = srcBuf.type ∧ flag2Buf.owner ≠ 0 ∧ flag2Buf.owner ≠ OSKAR_TRUE ∧
    flag2Buf.data ≠ srcBuf.data ∧
    ∃ (h' : Heap) (md' : oskar_Mem),
      oskar_mem_assign [flag2Buf, srcBuf] (some 0) (some 1) = some (OSKAR_SUCCESS, h') ∧
      h'[0]? = some md' ∧ md'.data = srcBuf.data ∧
      md'.num_elements = srcBuf.num_elements ∧
      md'.location = srcBuf.location ∧ md'.owner = flag2Buf.owner ∧ md'.owner ≠ 0 :=
  ⟨by decide, by decide, by decide, by decide,
    oskar_mem_assign_owner_flag_not_true [flag2Buf, srcBuf] 0 1 flag2Buf srcBuf rfl rfl
      (by decide) (by decide) (by decide)⟩


/-- The status of a call on pointers that are null or valid is `statusFrom` of
the two views. -/
theorem oskar_mem_assign_status (h : Heap) (dst src : Option Nat)
    (hd : validPtr h dst = true) (hs : validPtr h src = true) :
    ∃ h' : Heap, oskar_mem_assign h dst src =
      some (statusFrom (dstView h dst) (srcView h src), h') := by
  cases src with
  | none =>
    have e1 : oskar_mem_assign h dst none = some (OSKAR_ERR_INVALID_ARGUMENT, h) := by
      cases dst <;> rfl
    have e2 : statusFrom (dstView h dst) (srcView h none) = OSKAR_ERR_INVALID_ARGUMENT := by
      cases dstView h dst <;> rfl
    exact ⟨h, by rw [e1, e2]⟩
  | some s =>
    have hsl : s < h.length := by simpa [validPtr] using hs
    have hsg : h[s]? = some h[s] := List.getElem?_eq_getElem hsl
    have hsv : srcView h (some s) = some h[s].type := by
      show Option.map (fun m => m.type) h[s]? = some h[s].type
      rw [hsg]; rfl
    cases dst with
    | none =>
      have e2 : statusFrom (dstView h none) (srcView h (some s)) =
          OSKAR_ERR_INVALID_ARGUMENT := by
        rw [hsv]; rfl
      exact ⟨h, by rw [e2]; rfl⟩
    | some d =>
      have hdl : d < h.length := by simpa [validPtr] using hd
      have hdg : h[d]? = some h[d] := List.getElem?_eq_getElem hdl
      have hdv : dstView h (some d) = some (h[d].type, h[d].owner) := by
        show Option.map (fun m => (m.type, m.owner)) h[d]? = some (h[d].type, h[d].owner)
        rw [hdg]; rfl
      rw [oskar_mem_assign_valid h d s h[d] h[s] hdg hsg, hdv, hsv]
      by_cases ht : h[s].type ≠ h[d].type
      · exact ⟨h, by simp [statusFrom, ht]⟩
      · by_cases ho : h[d].owner = OSKAR_TRUE
        · exact ⟨h, by simp [statusFrom, ht, ho]⟩
        · exact ⟨h.set d (aliasOf h[d] h[s]), by simp only [statusFrom, ht, ho, if_false]⟩

/-- C24: the status depends only on whether `src` and `dst` are null, on the
two type fields and on `dst->owner`. Two calls, on any heaps, whose pointers
are null or valid and whose inputs agree on these return the same status,
whatever the `location`, `num_elements` and `data` of the buffers; and a
non-owning `dst` of any location is made an alias of a `src` of any other
location, its `location` becoming that of `src`. -/
theorem oskar_mem_assign_status_depends_only_on (h1 h2 : Heap)
    (dst1 src1 dst2 src2 : Option Nat)
    (hd1 : validPtr h1 dst1 = true) (hs1 : validPtr h1 src1 = true)
    (hd2 : validPtr h2 dst2 = true) (hs2 : validPtr h2 src2 = true)
    (hdv : dstView h1 dst1 = dstView h2 dst2) (hsv : srcView h1 src1 = srcView h2 src2) :
    (∃ (st : Int) (h1' h2' : Heap),
      oskar_mem_assign h1 dst1 src1 = some (st, h1') ∧
      oskar_mem_assign h2 dst2 src2 = some (st, h2')) ∧
    (∀ (h : Heap) (d s : Nat) (md ms : oskar_Mem),
      h[d]? = some md → h[s]? = some ms → md.type = ms.type → md.owner ≠ OSKAR_TRUE →
      ∃ (h' : Heap) (md' : oskar_Mem),
        oskar_mem_assign h (some d) (some s) = some (OSKAR_SUCCESS, h') ∧
        h'[d]? = some md' ∧ md'.location = ms.location ∧ md'.data = ms.data) := by
  constructor
  · obtain ⟨h1', e1⟩ := oskar_mem_assign_status h1 dst1 src1 hd1 hs1
    obtain ⟨h2', e2⟩ := oskar_mem_assign_status h2 dst2 src2 hd2 hs2
    rw [hdv, hsv] at e1
    exact ⟨_, h1', h2', e1, e2⟩
  · intro h d s md ms hd hs ht ho
    have hlt : d < h.length := (List.getElem?_eq_some_iff.mp hd).1
    refine ⟨h.set d (aliasOf md ms), aliasOf md ms, ?_, ?_, rfl, rfl⟩
    · rw [oskar_mem_assign_valid h d s md ms hd hs]
      simp [ht, ho]
    · simp [List.getElem?_set, hlt]

/-- Witness of C24: two heaps whose destinations and sources agree in type and
owner flag and differ in location, element count and data pointer. -/
theorem oskar_mem_assign_status_depends_only_on_witness :
    dstView [viewBuf, srcBuf] (some 0) = dstView [emptyViewBuf, ownedBuf] (some 0) ∧
    srcView [viewBuf, srcBuf] (some 1) = srcView [emptyViewBuf, ownedBuf] (some 1) ∧
    srcBuf.location ≠ ownedBuf.location ∧ srcBuf.num_elements ≠ ownedBuf.num_elements ∧
    srcBuf.data ≠ ownedBuf.data ∧ viewBuf.data ≠ emptyViewBuf.data ∧
    ((∃ (st : Int) (h1' h2' : Heap),
      oskar_mem_assign [viewBuf, srcBuf] (some 0) (some 1) = some (st, h1') ∧
      oskar_mem_assign [emptyViewBuf, ownedBuf] (some 0) (some 1) = some (st, h2')) ∧
    (∀ (h : Heap) (d s : Nat) (md ms : oskar_Mem),
      h[d]? = some md → h[s]? = some ms → md.type = ms.type → md.owner ≠ OSKAR_TRUE →
      ∃ (h' : Heap) (md' : oskar_Mem),
        oskar_mem_assign h (some d) (some s) = some (OSKAR_SUCCESS, h') ∧
        h'[d]? = some md' ∧ md'.location = ms.location ∧ md'.data = ms.data)) :=
  ⟨by decide, by decide, by decide, by decide, by decide, by decide,
    oskar_mem_assign_status_depends_only_on [viewBuf, srcBuf] [emptyViewBuf, ownedBuf]
      (some 0) (some 1) (some 0) (some 1) (by decide) (by decide) (by decide) (by decide)
      (by decide) (by decide)⟩

/-- C25: `oskar_mem_assign` is idempotent. When `assign(dst, src)` succeeds, the
same call on the resulting heap succeeds and leaves that heap as it is; and
`assign(x, x)` on a non-owning `x` succeeds and leaves the heap unchanged. -/
theorem oskar_mem_assign_idempotent (h : Heap) (dst src : Option Nat) (h1 : Heap)
    (hr : oskar_mem_assign h dst src = some (OSKAR_SUCCESS, h1)) :
    oskar_mem_assign h1 dst src = some (OSKAR_SUCCESS, h1) ∧
    (∀ (g : Heap) (x : Nat) (m : oskar_Mem), g[x]? = some m → m.owner ≠ OSKAR_TRUE →
      oskar_mem_assign g (some x) (some x) = some (OSKAR_SUCCESS, g)) := by
  have hself : ∀ (g : Heap) (x : Nat) (m : oskar_Mem), g[x]? = some m →
      m.owner ≠ OSKAR_TRUE →
      oskar_mem_assign g (some x) (some x) = some (OSKAR_SUCCESS, g) := by
    intro g x m hx ho
    rw [oskar_mem_assign_valid g x x m m hx hx]
    have ha : aliasOf m m = m := by cases m; rfl
    simp [ho, ha, List.set_of_getElem? g x m hx]
  refine ⟨?_, hself⟩
  have hia : OSKAR_ERR_INVALID_ARGUMENT ≠ OSKAR_SUCCESS := by decide
  have htm : OSKAR_ERR_TYPE_MISMATCH ≠ OSKAR_SUCCESS := by decide
  rcases oskar_mem_assign_cases h dst src OSKAR_SUCCESS h1 hr with
    ⟨_, hst, _⟩ | ⟨d, s, md, ms, hdst, hsrc, hd, hs, hc⟩
  · exact absurd hst.symm hia
  · rcases hc with ⟨_, hst, _⟩ | ⟨_, _, hst, _⟩ | ⟨ht, ho, _, hh⟩
    · exact absurd hst.symm htm
    · exact absurd hst.symm hia
    · subst hdst
      subst hsrc
      have hlt : d < h.length := (List.getElem?_eq_some_iff.mp hd).1
      have hd1 : h1[d]? = some (aliasOf md ms) := by
        rw [hh]; simp [List.getElem?_set, hlt]
      by_cases hds : d = s
      · subst hds
        have hself1 := hself h1 d (aliasOf md ms) hd1 ho
        exact hself1
      · have hs1 : h1[s]? = some ms := by
          rw [hh]; simp [List.getElem?_set, hds, hs]
        rw [oskar_mem_assign_valid h1 d s (aliasOf md ms) ms hd1 hs1]
        have ha : aliasOf (aliasOf md ms) ms = aliasOf md ms := rfl
        have ht1 : ¬ (ms.type ≠ (aliasOf md ms).type) := fun hne => hne rfl
        have ho1 : ¬ ((aliasOf md ms).owner = OSKAR_TRUE) := ho
        rw [if_neg ht1, if_neg ho1, ha, List.set_of_getElem? h1 d _ hd1]

/-- Witness of C25: the successful assignment of the device buffer at address 1
to the view at address 0, repeated. -/
theorem oskar_mem_assign_idempotent_witness :
    oskar_mem_assign [viewBuf, srcBuf] (some 0) (some 1) =
      some (OSKAR_SUCCESS, [aliasOf viewBuf srcBuf, srcBuf]) ∧
    (oskar_mem_assign [aliasOf viewBuf srcBuf, srcBuf] (some 0) (some 1) =
      some (OSKAR_SUCCESS, [aliasOf viewBuf srcBuf, srcBuf]) ∧
    (∀ (g : Heap) (x : Nat) (m : oskar_Mem), g[x]? = some m → m.owner ≠ OSKAR_TRUE →
      oskar_mem_assign g (some x) (some x) = some (OSKAR_SUCCESS, g))) :=
  ⟨by decide,
    oskar_mem_assign_idempotent [viewBuf, srcBuf] (some 0) (some 1)
      [aliasOf viewBuf srcBuf, srcBuf] (by decide)⟩

/-! ## The named element types are distinct -/

/-- C26: the eight named element types have pairwise distinct values, so a type
byte identifies at most one of them, and for a `dst` and a `src` whose types
are two different named types the type check of `oskar_mem_assign` fails:
the call returns `OSKAR_ERR_TYPE_MISMATCH`. -/
theorem named_types_distinct (a b : NamedType) (hab : a ≠ b) (h : Heap) (d s : Nat)
    (md ms : oskar_Mem) (hd : h[d]? = some md) (hs : h[s]? = some ms)
    (hmd : md.type = a.tag) (hms : ms.type = b.tag) :
    a.tag ≠ b.tag ∧
    oskar_mem_assign h (some d) (some s) = some (OSKAR_ERR_TYPE_MISMATCH, h) ∧
    Function.Injective NamedType.tag ∧
    [OSKAR_CHAR, OSKAR_INT, OSKAR_SINGLE, OSKAR_DOUBLE, OSKAR_SINGLE_COMPLEX,
      OSKAR_DOUBLE_COMPLEX, OSKAR_SINGLE_COMPLEX_MATRIX,
      OSKAR_DOUBLE_COMPLEX_MATRIX].Nodup := by
  have hinj : Function.Injective NamedType.tag := by
    intro x y
    cases x <;> cases y <;> decide
  have hne : a.tag ≠ b.tag := fun e => hab (hinj e)
  refine ⟨hne, ?_, hinj, by decide⟩
  rw [oskar_mem_assign_valid h d s md ms hd hs]
  have : ms.type ≠ md.type := by rw [hmd, hms]; exact Ne.symm hne
  simp [this]

/-- Witness of C26: a double-precision destination and a single-precision
source. -/
theorem named_types_distinct_witness :
    NamedType.DOUBLE ≠ NamedType.SINGLE ∧
    ownedBuf.type = NamedType.DOUBLE.tag ∧ singleBuf.type = NamedType.SINGLE.tag ∧
    (NamedType.DOUBLE.tag ≠ NamedType.SINGLE.tag ∧
    oskar_mem_assign [ownedBuf, singleBuf] (some 0) (some 1) =
      some (OSKAR_ERR_TYPE_MISMATCH, [ownedBuf, singleBuf]) ∧
    Function.Injective NamedType.tag ∧
    [OSKAR_CHAR, OSKAR_INT, OSKAR_SINGLE, OSKAR_DOUBLE, OSKAR_SINGLE_COMPLEX,
      OSKAR_DOUBLE_COMPLEX, OSKAR_SINGLE_COMPLEX_MATRIX,
      OSKAR_DOUBLE_COMPLEX_MATRIX].Nodup) :=
  ⟨by decide, rfl, rfl,
    named_types_distinct NamedType.DOUBLE NamedType.SINGLE (by decide) [ownedBuf, singleBuf]
      0 1 ownedBuf singleBuf rfl rfl rfl rfl⟩


end OSKAR
